import Mathlib

/-
Verification development for the graphiti-go-client repository.

The client (client.go) is a thin typed wrapper over a JSON/HTTP API.  We
shallowly embed:
  - the JSON value space and the encoding/json marshalling of the request
    structs of types.go (struct-tag driven: field order, omitempty, pointer
    versus value semantics),
  - the encoding/json unmarshalling of request and response structs
    (zero-value defaults for missing keys, null handling, case-insensitive
    key matching by Unicode simple folding with last-write-wins, unknown
    keys skipped),
  - the generic request executor `do` (status interpretation, error wrapping,
    body close accounting) and the twelve endpoint methods,
  - client construction (NewClient / WithTimeout / WithHTTPClient) over an
    explicit heap of http.Client objects, so that the in-place timeout
    mutation is observable,
  - net/url.PathEscape at the byte level.

Modelling conventions: Go string -> String, int / time.Duration (int64) ->
Int (no request field arithmetic can overflow in scope), *T -> Option T,
[]T -> List T (a nil slice is identified with the empty slice),
time.Time -> GoTime, an opaque wrapper of its RFC 3339 rendering (time.Time
marshals to a JSON string and unmarshals back from it).  JSON numbers are
modelled as integers; no claim in scope exercises fractional numbers.
-/

namespace Graphiti

/-- JSON values, as produced by encoding/json. -/
inductive Json where
  | null : Json
  | bool : Bool → Json
  | num : Int → Json
  | str : String → Json
  | arr : List Json → Json
  | obj : List (String × Json) → Json

/-- Keys of a JSON object, in emission order (empty for non-objects). -/
def jsonKeys : Json → List String
  | .obj kvs => kvs.map Prod.fst
  | _ => []

/-- Opaque model of time.Time: its RFC 3339 rendering, which is exactly what
time.Time marshals to (a JSON string) and parses back from. -/
structure GoTime where
  rfc3339 : String
deriving DecidableEq

/-- Zero time.Time, as rendered by MarshalJSON. -/
def GoTime.zero : GoTime := ⟨"0001-01-01T00:00:00Z"⟩

/-- Observation struct of types.go (all three fields required, no omitempty). -/
structure Observation where
  ID : String
  TraceID : String
  Time : GoTime
deriving DecidableEq

/-- Message struct of types.go. -/
structure Message where
  Content : String
  UUID : Option String
  Name : String
  Author : String
  Timestamp : GoTime
  SourceDescription : String
deriving DecidableEq

/-- SearchQuery struct of types.go. -/
structure SearchQuery where
  GroupIDs : Option (List String)
  Query : String
  MaxFacts : Int
  Observation : Option Observation
deriving DecidableEq

/-- GetMemoryRequest struct of types.go.  Note: the center_node_uuid tag has
no omitempty in the source. -/
structure GetMemoryRequest where
  GroupID : String
  MaxFacts : Int
  CenterNodeUUID : Option String
  Messages : List Message
  Observation : Option Observation
deriving DecidableEq

/-- AddMessagesRequest struct of types.go. -/
structure AddMessagesRequest where
  GroupID : String
  Messages : List Message
  Observation : Option Observation
deriving DecidableEq

/-- AddEntityNodeRequest struct of types.go. -/
structure AddEntityNodeRequest where
  UUID : String
  GroupID : String
  Name : String
  Summary : String
  Observation : Option Observation
deriving DecidableEq

/-- TemporalSearchRequest struct (advanced search types file). -/
structure TemporalSearchRequest where
  Query : String
  GroupID : Option String
  TimeStart : GoTime
  TimeEnd : GoTime
  MaxResults : Int
deriving DecidableEq

/-- EntityRelationshipSearchRequest struct (advanced search types file). -/
structure EntityRelationshipSearchRequest where
  Query : String
  GroupID : Option String
  CenterNodeUUID : String
  MaxDepth : Int
  NodeLabels : Option (List String)
  EdgeTypes : Option (List String)
  MaxResults : Int
deriving DecidableEq

/-- DiverseSearchRequest struct (advanced search types file). -/
structure DiverseSearchRequest where
  Query : String
  GroupID : Option String
  DiversityLevel : String
  MaxResults : Int
deriving DecidableEq

/-- EpisodeContextSearchRequest struct (advanced search types file). -/
structure EpisodeContextSearchRequest where
  Query : String
  GroupID : Option String
  AgentTypes : Option (List String)
  IncludeToolCalls : Bool
  MaxResults : Int
deriving DecidableEq

/-- SuccessfulToolsSearchRequest struct (advanced search types file). -/
structure SuccessfulToolsSearchRequest where
  Query : String
  GroupID : Option String
  ToolNames : Option (List String)
  MinMentions : Int
  MaxResults : Int
deriving DecidableEq

/-- RecentContextSearchRequest struct (advanced search types file). -/
structure RecentContextSearchRequest where
  Query : String
  GroupID : Option String
  RecencyWindow : String
  MaxResults : Int
deriving DecidableEq

/-- EntityByLabelSearchRequest struct (advanced search types file).  NodeLabels
is a plain slice (required key), EdgeTypes an optional pointer. -/
structure EntityByLabelSearchRequest where
  Query : String
  GroupID : Option String
  NodeLabels : List String
  EdgeTypes : Option (List String)
  MaxResults : Int
deriving DecidableEq

/-! Marshalling.  Each encoder is json.Marshal specialized to one struct:
fields are emitted in declaration order under their tag names; a field tagged
omitempty is dropped when its value is empty (nil pointer, empty string,
zero int, false, nil slice); a nil pointer without omitempty is emitted as
null. -/

/-- Marshal an optional (pointer) field tagged omitempty: key absent when nil. -/
def optField (k : String) (enc : α → Json) : Option α → List (String × Json)
  | none => []
  | some v => [(k, enc v)]

/-- Marshal a string field tagged omitempty: key absent when the string is empty. -/
def strOmit (k : String) (s : String) : List (String × Json) :=
  if s == "" then [] else [(k, .str s)]

/-- Marshal an int field tagged omitempty: key absent when zero. -/
def intOmit (k : String) (n : Int) : List (String × Json) :=
  if n == 0 then [] else [(k, .num n)]

/-- Marshal a bool field tagged omitempty: key absent when false. -/
def boolOmit (k : String) (b : Bool) : List (String × Json) :=
  if b then [(k, .bool b)] else []

/-- Marshal a list of strings. -/
def strArr (xs : List String) : Json := .arr (xs.map Json.str)

/-- Marshal an Observation. -/
def encodeObservation (o : Observation) : Json :=
  .obj [("id", .str o.ID), ("trace_id", .str o.TraceID), ("time", .str o.Time.rfc3339)]

/-- Marshal a Message. -/
def encodeMessage (m : Message) : Json :=
  .obj ([("content", .str m.Content)]
    ++ optField "uuid" Json.str m.UUID
    ++ strOmit "name" m.Name
    ++ [("author", .str m.Author), ("timestamp", .str m.Timestamp.rfc3339)]
    ++ strOmit "source_description" m.SourceDescription)

/-- Marshal a SearchQuery. -/
def encodeSearchQuery (q : SearchQuery) : Json :=
  .obj (optField "group_ids" strArr q.GroupIDs
    ++ [("query", .str q.Query)]
    ++ intOmit "max_facts" q.MaxFacts
    ++ optField "observation" encodeObservation q.Observation)

/-- Marshal a GetMemoryRequest.  center_node_uuid has no omitempty, so a nil
pointer is emitted as an explicit null. -/
def encodeGetMemoryRequest (r : GetMemoryRequest) : Json :=
  .obj ([("group_id", .str r.GroupID)]
    ++ intOmit "max_facts" r.MaxFacts
    ++ [("center_node_uuid", match r.CenterNodeUUID with
          | none => Json.null
          | some s => Json.str s)]
    ++ [("messages", .arr (r.Messages.map encodeMessage))]
    ++ optField "observation" encodeObservation r.Observation)

/-- Marshal an AddMessagesRequest. -/
def encodeAddMessagesRequest (r : AddMessagesRequest) : Json :=
  .obj ([("group_id", .str r.GroupID),
         ("messages", .arr (r.Messages.map encodeMessage))]
    ++ optField "observation" encodeObservation r.Observation)

/-- Marshal an AddEntityNodeRequest. -/
def encodeAddEntityNodeRequest (r : AddEntityNodeRequest) : Json :=
  .obj ([("uuid", .str r.UUID), ("group_id", .str r.GroupID), ("name", .str r.Name)]
    ++ strOmit "summary" r.Summary
    ++ optField "observation" encodeObservation r.Observation)

/-- Marshal a TemporalSearchRequest. -/
def encodeTemporalSearchRequest (r : TemporalSearchRequest) : Json :=
  .obj ([("query", .str r.Query)]
    ++ optField "group_id" Json.str r.GroupID
    ++ [("time_start", .str r.TimeStart.rfc3339), ("time_end", .str r.TimeEnd.rfc3339)]
    ++ intOmit "max_results" r.MaxResults)

/-- Marshal an EntityRelationshipSearchRequest. -/
def encodeEntityRelationshipSearchRequest (r : EntityRelationshipSearchRequest) : Json :=
  .obj ([("query", .str r.Query)]
    ++ optField "group_id" Json.str r.GroupID
    ++ [("center_node_uuid", .str r.CenterNodeUUID)]
    ++ intOmit "max_depth" r.MaxDepth
    ++ optField "node_labels" strArr r.NodeLabels
    ++ optField "edge_types" strArr r.EdgeTypes
    ++ intOmit "max_results" r.MaxResults)

/-- Marshal a DiverseSearchRequest. -/
def encodeDiverseSearchRequest (r : DiverseSearchRequest) : Json :=
  .obj ([("query", .str r.Query)]
    ++ optField "group_id" Json.str r.GroupID
    ++ strOmit "diversity_level" r.DiversityLevel
    ++ intOmit "max_results" r.MaxResults)

/-- Marshal an EpisodeContextSearchRequest. -/
def encodeEpisodeContextSearchRequest (r : EpisodeContextSearchRequest) : Json :=
  .obj ([("query", .str r.Query)]
    ++ optField "group_id" Json.str r.GroupID
    ++ optField "agent_types" strArr r.AgentTypes
    ++ boolOmit "include_tool_calls" r.IncludeToolCalls
    ++ intOmit "max_results" r.MaxResults)

/-- Marshal a SuccessfulToolsSearchRequest. -/
def encodeSuccessfulToolsSearchRequest (r : SuccessfulToolsSearchRequest) : Json :=
  .obj ([("query", .str r.Query)]
    ++ optField "group_id" Json.str r.GroupID
    ++ optField "tool_names" strArr r.ToolNames
    ++ intOmit "min_mentions" r.MinMentions
    ++ intOmit "max_results" r.MaxResults)

/-- Marshal a RecentContextSearchRequest. -/
def encodeRecentContextSearchRequest (r : RecentContextSearchRequest) : Json :=
  .obj ([("query", .str r.Query)]
    ++ optField "group_id" Json.str r.GroupID
    ++ strOmit "recency_window" r.RecencyWindow
    ++ intOmit "max_results" r.MaxResults)

/-- Marshal an EntityByLabelSearchRequest (node_labels is a required key). -/
def encodeEntityByLabelSearchRequest (r : EntityByLabelSearchRequest) : Json :=
  .obj ([("query", .str r.Query)]
    ++ optField "group_id" Json.str r.GroupID
    ++ [("node_labels", strArr r.NodeLabels)]
    ++ optField "edge_types" strArr r.EdgeTypes
    ++ intOmit "max_results" r.MaxResults)

/-! Response structs of types.go. -/

/-- HealthCheckResponse struct of types.go. -/
structure HealthCheckResponse where
  Status : String
deriving DecidableEq

/-- Result struct of types.go. -/
structure Result where
  Message : String
  Success : Bool
deriving DecidableEq

/-- FactResult struct of types.go. -/
structure FactResult where
  UUID : String
  Name : String
  Fact : String
  ValidAt : Option GoTime
  InvalidAt : Option GoTime
  CreatedAt : GoTime
  ExpiredAt : Option GoTime
deriving DecidableEq

/-- SearchResults struct of types.go. -/
structure SearchResults where
  Facts : List FactResult
deriving DecidableEq

/-- GetMemoryResponse struct of types.go. -/
structure GetMemoryResponse where
  Facts : List FactResult
deriving DecidableEq

/-- EntityNode struct of types.go; Metadata models map[string]interface\x7b\x7d
as an association list of raw JSON values. -/
structure EntityNode where
  UUID : String
  GroupID : String
  Name : String
  Summary : String
  CreatedAt : GoTime
  Labels : List String
  Metadata : List (String × Json)

/-- Episode struct of types.go. -/
structure Episode where
  UUID : String
  GroupID : String
  Name : String
  Content : String
  Source : String
  SourceDescription : String
  CreatedAt : GoTime
  ValidAt : GoTime
  Metadata : List (String × Json)

/-! Unmarshalling.  encoding/json semantics: object keys are matched to
struct fields by tag, preferring an exact match but accepting a
case-insensitive one under Unicode simple folding (bytes.EqualFold, via
foldName); keys are processed in input order (a later key for the same
field overwrites); keys matching no field are skipped; a JSON null sets
pointer and slice fields to nil and leaves every other field unchanged; a
missing key leaves the field at its zero value; a type mismatch fails. -/

/-- Smallest rune of a Unicode simple-fold class, as the foldRune of
encoding/json computes it, for every fold class that meets ASCII: an ASCII
lower-case letter folds to its upper case, and the long s U+017F and the
Kelvin sign U+212A — the only two runes outside ASCII whose fold class
meets ASCII — fold to S and K.  A rune of a fold class disjoint from ASCII
is kept verbatim rather than sent to its class minimum; every field tag of
this program is ASCII, so folded-name equality against a tag agrees with
bytes.EqualFold exactly. -/
def foldRune (c : Char) : Char :=
  if 97 ≤ c.toNat ∧ c.toNat ≤ 122 then Char.ofNat (c.toNat - 32)
  else if c.toNat = 383 then Char.ofNat 83
  else if c.toNat = 8490 then Char.ofNat 75
  else c

/-- Case-insensitive name equality under Unicode simple folding
(bytes.EqualFold), as used by encoding/json to match incoming object keys
to struct field tags. -/
def foldEq (a b : String) : Bool :=
  a.data.map foldRune == b.data.map foldRune

/-- Unmarshal into a string field: null is a no-op, otherwise a JSON string. -/
def decString (cur : String) : Json → Except String String
  | .null => .ok cur
  | .str s => .ok s
  | _ => .error "json: cannot unmarshal value into string"

/-- Unmarshal into an int field: null is a no-op, otherwise a JSON number. -/
def decInt (cur : Int) : Json → Except String Int
  | .null => .ok cur
  | .num n => .ok n
  | _ => .error "json: cannot unmarshal value into int"

/-- Unmarshal into a bool field: null is a no-op, otherwise a JSON bool. -/
def decBool (cur : Bool) : Json → Except String Bool
  | .null => .ok cur
  | .bool b => .ok b
  | _ => .error "json: cannot unmarshal value into bool"

/-- Unmarshal into a time.Time field: null is a no-op, otherwise the RFC 3339
string (time.Time.UnmarshalJSON requires a JSON string). -/
def decTime (cur : GoTime) : Json → Except String GoTime
  | .null => .ok cur
  | .str s => .ok ⟨s⟩
  | _ => .error "json: cannot unmarshal value into time.Time"

/-- Unmarshal into a *string field: null sets the pointer to nil. -/
def decOptString : Json → Except String (Option String)
  | .null => .ok none
  | .str s => .ok (some s)
  | _ => .error "json: cannot unmarshal value into *string"

/-- Unmarshal into a *time.Time field: null sets the pointer to nil. -/
def decOptTime : Json → Except String (Option GoTime)
  | .null => .ok none
  | .str s => .ok (some ⟨s⟩)
  | _ => .error "json: cannot unmarshal value into *time.Time"

/-- Unmarshal the elements of a JSON array in order (Go allocates the
destination slice and decodes elementwise, failing on the first bad element). -/
def decList (f : Json → Except String α) : List Json → Except String (List α)
  | [] => .ok []
  | v :: vs => do
    let x ← f v
    let xs ← decList f vs
    .ok (x :: xs)

/-- Unmarshal into a []string field: null sets the slice to nil. -/
def decStrList : Json → Except String (List String)
  | .null => .ok []
  | .arr xs => decList (decString "") xs
  | _ => .error "json: cannot unmarshal value into []string"

/-- Unmarshal into a *[]string field: null sets the pointer to nil. -/
def decOptStrList : Json → Except String (Option (List String))
  | .null => .ok none
  | .arr xs => some <$> decList (decString "") xs
  | _ => .error "json: cannot unmarshal value into *[]string"

/-- Unmarshal into a map[string]interface\x7b\x7d field: null sets the map to
nil, an object is taken verbatim. -/
def decMeta : Json → Except String (List (String × Json))
  | .null => .ok []
  | .obj kvs => .ok kvs
  | _ => .error "json: cannot unmarshal value into map"

/-- Zero Observation. -/
def Observation.zero : Observation := ⟨"", "", GoTime.zero⟩

/-- Single-key update for Observation. -/
def setObservation (s : Observation) (k : String) (v : Json) : Except String Observation :=
  if foldEq k "id" then do
    let x ← decString s.ID v; .ok {s with ID := x}
  else if foldEq k "trace_id" then do
    let x ← decString s.TraceID v; .ok {s with TraceID := x}
  else if foldEq k "time" then do
    let x ← decTime s.Time v; .ok {s with Time := x}
  else .ok s

/-- Unmarshal an Observation. -/
def decodeObservation : Json → Except String Observation
  | .obj kvs => kvs.foldlM (fun s kv => setObservation s kv.1 kv.2) Observation.zero
  | .null => .ok Observation.zero
  | _ => .error "json: cannot unmarshal value into Observation"

/-- Unmarshal into a *Observation field: null sets the pointer to nil. -/
def decOptObservation : Json → Except String (Option Observation)
  | .null => .ok none
  | v => some <$> decodeObservation v

/-- Zero Message. -/
def Message.zero : Message := ⟨"", none, "", "", GoTime.zero, ""⟩

/-- Single-key update for Message. -/
def setMessage (s : Message) (k : String) (v : Json) : Except String Message :=
  if foldEq k "content" then do
    let x ← decString s.Content v; .ok {s with Content := x}
  else if foldEq k "uuid" then do
    let x ← decOptString v; .ok {s with UUID := x}
  else if foldEq k "name" then do
    let x ← decString s.Name v; .ok {s with Name := x}
  else if foldEq k "author" then do
    let x ← decString s.Author v; .ok {s with Author := x}
  else if foldEq k "timestamp" then do
    let x ← decTime s.Timestamp v; .ok {s with Timestamp := x}
  else if foldEq k "source_description" then do
    let x ← decString s.SourceDescription v; .ok {s with SourceDescription := x}
  else .ok s

/-- Unmarshal a Message. -/
def decodeMessage : Json → Except String Message
  | .obj kvs => kvs.foldlM (fun s kv => setMessage s kv.1 kv.2) Message.zero
  | .null => .ok Message.zero
  | _ => .error "json: cannot unmarshal value into Message"

/-- Unmarshal into a []Message field: null sets the slice to nil. -/
def decMsgList : Json → Except String (List Message)
  | .null => .ok []
  | .arr xs => decList decodeMessage xs
  | _ => .error "json: cannot unmarshal value into []Message"

/-- Single-key update for SearchQuery. -/
def setSearchQuery (s : SearchQuery) (k : String) (v : Json) : Except String SearchQuery :=
  if foldEq k "group_ids" then do
    let x ← decOptStrList v; .ok {s with GroupIDs := x}
  else if foldEq k "query" then do
    let x ← decString s.Query v; .ok {s with Query := x}
  else if foldEq k "max_facts" then do
    let x ← decInt s.MaxFacts v; .ok {s with MaxFacts := x}
  else if foldEq k "observation" then do
    let x ← decOptObservation v; .ok {s with Observation := x}
  else .ok s

/-- Unmarshal a SearchQuery. -/
def decodeSearchQuery : Json → Except String SearchQuery
  | .obj kvs => kvs.foldlM (fun s kv => setSearchQuery s kv.1 kv.2) ⟨none, "", 0, none⟩
  | .null => .ok ⟨none, "", 0, none⟩
  | _ => .error "json: cannot unmarshal value into SearchQuery"

/-- Single-key update for GetMemoryRequest. -/
def setGetMemoryRequest (s : GetMemoryRequest) (k : String) (v : Json) :
    Except String GetMemoryRequest :=
  if foldEq k "group_id" then do
    let x ← decString s.GroupID v; .ok {s with GroupID := x}
  else if foldEq k "max_facts" then do
    let x ← decInt s.MaxFacts v; .ok {s with MaxFacts := x}
  else if foldEq k "center_node_uuid" then do
    let x ← decOptString v; .ok {s with CenterNodeUUID := x}
  else if foldEq k "messages" then do
    let x ← decMsgList v; .ok {s with Messages := x}
  else if foldEq k "observation" then do
    let x ← decOptObservation v; .ok {s with Observation := x}
  else .ok s

/-- Unmarshal a GetMemoryRequest. -/
def decodeGetMemoryRequest : Json → Except String GetMemoryRequest
  | .obj kvs => kvs.foldlM (fun s kv => setGetMemoryRequest s kv.1 kv.2) ⟨"", 0, none, [], none⟩
  | .null => .ok ⟨"", 0, none, [], none⟩
  | _ => .error "json: cannot unmarshal value into GetMemoryRequest"

/-- Single-key update for AddMessagesRequest. -/
def setAddMessagesRequest (s : AddMessagesRequest) (k : String) (v : Json) :
    Except String AddMessagesRequest :=
  if foldEq k "group_id" then do
    let x ← decString s.GroupID v; .ok {s with GroupID := x}
  else if foldEq k "messages" then do
    let x ← decMsgList v; .ok {s with Messages := x}
  else if foldEq k "observation" then do
    let x ← decOptObservation v; .ok {s with Observation := x}
  else .ok s

/-- Unmarshal an AddMessagesRequest. -/
def decodeAddMessagesRequest : Json → Except String AddMessagesRequest
  | .obj kvs => kvs.foldlM (fun s kv => setAddMessagesRequest s kv.1 kv.2) ⟨"", [], none⟩
  | .null => .ok ⟨"", [], none⟩
  | _ => .error "json: cannot unmarshal value into AddMessagesRequest"

/-- Single-key update for AddEntityNodeRequest. -/
def setAddEntityNodeRequest (s : AddEntityNodeRequest) (k : String) (v : Json) :
    Except String AddEntityNodeRequest :=
  if foldEq k "uuid" then do
    let x ← decString s.UUID v; .ok {s with UUID := x}
  else if foldEq k "group_id" then do
    let x ← decString s.GroupID v; .ok {s with GroupID := x}
  else if foldEq k "name" then do
    let x ← decString s.Name v; .ok {s with Name := x}
  else if foldEq k "summary" then do
    let x ← decString s.Summary v; .ok {s with Summary := x}
  else if foldEq k "observation" then do
    let x ← decOptObservation v; .ok {s with Observation := x}
  else .ok s

/-- Unmarshal an AddEntityNodeRequest. -/
def decodeAddEntityNodeRequest : Json → Except String AddEntityNodeRequest
  | .obj kvs => kvs.foldlM (fun s kv => setAddEntityNodeRequest s kv.1 kv.2) ⟨"", "", "", "", none⟩
  | .null => .ok ⟨"", "", "", "", none⟩
  | _ => .error "json: cannot unmarshal value into AddEntityNodeRequest"

/-- Single-key update for TemporalSearchRequest. -/
def setTemporalSearchRequest (s : TemporalSearchRequest) (k : String) (v : Json) :
    Except String TemporalSearchRequest :=
  if foldEq k "query" then do
    let x ← decString s.Query v; .ok {s with Query := x}
  else if foldEq k "group_id" then do
    let x ← decOptString v; .ok {s with GroupID := x}
  else if foldEq k "time_start" then do
    let x ← decTime s.TimeStart v; .ok {s with TimeStart := x}
  else if foldEq k "time_end" then do
    let x ← decTime s.TimeEnd v; .ok {s with TimeEnd := x}
  else if foldEq k "max_results" then do
    let x ← decInt s.MaxResults v; .ok {s with MaxResults := x}
  else .ok s

/-- Unmarshal a TemporalSearchRequest. -/
def decodeTemporalSearchRequest : Json → Except String TemporalSearchRequest
  | .obj kvs => kvs.foldlM (fun s kv => setTemporalSearchRequest s kv.1 kv.2)
      ⟨"", none, GoTime.zero, GoTime.zero, 0⟩
  | .null => .ok ⟨"", none, GoTime.zero, GoTime.zero, 0⟩
  | _ => .error "json: cannot unmarshal value into TemporalSearchRequest"

/-- Single-key update for EntityRelationshipSearchRequest. -/
def setEntityRelationshipSearchRequest (s : EntityRelationshipSearchRequest) (k : String)
    (v : Json) : Except String EntityRelationshipSearchRequest :=
  if foldEq k "query" then do
    let x ← decString s.Query v; .ok {s with Query := x}
  else if foldEq k "group_id" then do
    let x ← decOptString v; .ok {s with GroupID := x}
  else if foldEq k "center_node_uuid" then do
    let x ← decString s.CenterNodeUUID v; .ok {s with CenterNodeUUID := x}
  else if foldEq k "max_depth" then do
    let x ← decInt s.MaxDepth v; .ok {s with MaxDepth := x}
  else if foldEq k "node_labels" then do
    let x ← decOptStrList v; .ok {s with NodeLabels := x}
  else if foldEq k "edge_types" then do
    let x ← decOptStrList v; .ok {s with EdgeTypes := x}
  else if foldEq k "max_results" then do
    let x ← decInt s.MaxResults v; .ok {s with MaxResults := x}
  else .ok s

/-- Unmarshal an EntityRelationshipSearchRequest. -/
def decodeEntityRelationshipSearchRequest : Json → Except String EntityRelationshipSearchRequest
  | .obj kvs => kvs.foldlM (fun s kv => setEntityRelationshipSearchRequest s kv.1 kv.2)
      ⟨"", none, "", 0, none, none, 0⟩
  | .null => .ok ⟨"", none, "", 0, none, none, 0⟩
  | _ => .error "json: cannot unmarshal value into EntityRelationshipSearchRequest"

/-- Single-key update for DiverseSearchRequest. -/
def setDiverseSearchRequest (s : DiverseSearchRequest) (k : String) (v : Json) :
    Except String DiverseSearchRequest :=
  if foldEq k "query" then do
    let x ← decString s.Query v; .ok {s with Query := x}
  else if foldEq k "group_id" then do
    let x ← decOptString v; .ok {s with GroupID := x}
  else if foldEq k "diversity_level" then do
    let x ← decString s.DiversityLevel v; .ok {s with DiversityLevel := x}
  else if foldEq k "max_results" then do
    let x ← decInt s.MaxResults v; .ok {s with MaxResults := x}
  else .ok s

/-- Unmarshal a DiverseSearchRequest. -/
def decodeDiverseSearchRequest : Json → Except String DiverseSearchRequest
  | .obj kvs => kvs.foldlM (fun s kv => setDiverseSearchRequest s kv.1 kv.2) ⟨"", none, "", 0⟩
  | .null => .ok ⟨"", none, "", 0⟩
  | _ => .error "json: cannot unmarshal value into DiverseSearchRequest"

/-- Single-key update for EpisodeContextSearchRequest. -/
def setEpisodeContextSearchRequest (s : EpisodeContextSearchRequest) (k : String) (v : Json) :
    Except String EpisodeContextSearchRequest :=
  if foldEq k "query" then do
    let x ← decString s.Query v; .ok {s with Query := x}
  else if foldEq k "group_id" then do
    let x ← decOptString v; .ok {s with GroupID := x}
  else if foldEq k "agent_types" then do
    let x ← decOptStrList v; .ok {s with AgentTypes := x}
  else if foldEq k "include_tool_calls" then do
    let x ← decBool s.IncludeToolCalls v; .ok {s with IncludeToolCalls := x}
  else if foldEq k "max_results" then do
    let x ← decInt s.MaxResults v; .ok {s with MaxResults := x}
  else .ok s

/-- Unmarshal an EpisodeContextSearchRequest. -/
def decodeEpisodeContextSearchRequest : Json → Except String EpisodeContextSearchRequest
  | .obj kvs => kvs.foldlM (fun s kv => setEpisodeContextSearchRequest s kv.1 kv.2)
      ⟨"", none, none, false, 0⟩
  | .null => .ok ⟨"", none, none, false, 0⟩
  | _ => .error "json: cannot unmarshal value into EpisodeContextSearchRequest"

/-- Single-key update for SuccessfulToolsSearchRequest. -/
def setSuccessfulToolsSearchRequest (s : SuccessfulToolsSearchRequest) (k : String) (v : Json) :
    Except String SuccessfulToolsSearchRequest :=
  if foldEq k "query" then do
    let x ← decString s.Query v; .ok {s with Query := x}
  else if foldEq k "group_id" then do
    let x ← decOptString v; .ok {s with GroupID := x}
  else if foldEq k "tool_names" then do
    let x ← decOptStrList v; .ok {s with ToolNames := x}
  else if foldEq k "min_mentions" then do
    let x ← decInt s.MinMentions v; .ok {s with MinMentions := x}
  else if foldEq k "max_results" then do
    let x ← decInt s.MaxResults v; .ok {s with MaxResults := x}
  else .ok s

/-- Unmarshal a SuccessfulToolsSearchRequest. -/
def decodeSuccessfulToolsSearchRequest : Json → Except String SuccessfulToolsSearchRequest
  | .obj kvs => kvs.foldlM (fun s kv => setSuccessfulToolsSearchRequest s kv.1 kv.2)
      ⟨"", none, none, 0, 0⟩
  | .null => .ok ⟨"", none, none, 0, 0⟩
  | _ => .error "json: cannot unmarshal value into SuccessfulToolsSearchRequest"

/-- Single-key update for RecentContextSearchRequest. -/
def setRecentContextSearchRequest (s : RecentContextSearchRequest) (k : String) (v : Json) :
    Except String RecentContextSearchRequest :=
  if foldEq k "query" then do
    let x ← decString s.Query v; .ok {s with Query := x}
  else if foldEq k "group_id" then do
    let x ← decOptString v; .ok {s with GroupID := x}
  else if foldEq k "recency_window" then do
    let x ← decString s.RecencyWindow v; .ok {s with RecencyWindow := x}
  else if foldEq k "max_results" then do
    let x ← decInt s.MaxResults v; .ok {s with MaxResults := x}
  else .ok s

/-- Unmarshal a RecentContextSearchRequest. -/
def decodeRecentContextSearchRequest : Json → Except String RecentContextSearchRequest
  | .obj kvs => kvs.foldlM (fun s kv => setRecentContextSearchRequest s kv.1 kv.2) ⟨"", none, "", 0⟩
  | .null => .ok ⟨"", none, "", 0⟩
  | _ => .error "json: cannot unmarshal value into RecentContextSearchRequest"

/-- Single-key update for EntityByLabelSearchRequest. -/
def setEntityByLabelSearchRequest (s : EntityByLabelSearchRequest) (k : String) (v : Json) :
    Except String EntityByLabelSearchRequest :=
  if foldEq k "query" then do
    let x ← decString s.Query v; .ok {s with Query := x}
  else if foldEq k "group_id" then do
    let x ← decOptString v; .ok {s with GroupID := x}
  else if foldEq k "node_labels" then do
    let x ← decStrList v; .ok {s with NodeLabels := x}
  else if foldEq k "edge_types" then do
    let x ← decOptStrList v; .ok {s with EdgeTypes := x}
  else if foldEq k "max_results" then do
    let x ← decInt s.MaxResults v; .ok {s with MaxResults := x}
  else .ok s

/-- Unmarshal an EntityByLabelSearchRequest. -/
def decodeEntityByLabelSearchRequest : Json → Except String EntityByLabelSearchRequest
  | .obj kvs => kvs.foldlM (fun s kv => setEntityByLabelSearchRequest s kv.1 kv.2)
      ⟨"", none, [], none, 0⟩
  | .null => .ok ⟨"", none, [], none, 0⟩
  | _ => .error "json: cannot unmarshal value into EntityByLabelSearchRequest"

/-- Single-key update for HealthCheckResponse. -/
def setHealthCheckResponse (s : HealthCheckResponse) (k : String) (v : Json) :
    Except String HealthCheckResponse :=
  if foldEq k "status" then do
    let x ← decString s.Status v; .ok {s with Status := x}
  else .ok s

/-- Unmarshal a HealthCheckResponse. -/
def decodeHealthCheckResponse : Json → Except String HealthCheckResponse
  | .obj kvs => kvs.foldlM (fun s kv => setHealthCheckResponse s kv.1 kv.2) ⟨""⟩
  | .null => .ok ⟨""⟩
  | _ => .error "json: cannot unmarshal value into HealthCheckResponse"

/-- Single-key update for Result. -/
def setResult (s : Result) (k : String) (v : Json) : Except String Result :=
  if foldEq k "message" then do
    let x ← decString s.Message v; .ok {s with Message := x}
  else if foldEq k "success" then do
    let x ← decBool s.Success v; .ok {s with Success := x}
  else .ok s

/-- Unmarshal a Result. -/
def decodeResult : Json → Except String Result
  | .obj kvs => kvs.foldlM (fun s kv => setResult s kv.1 kv.2) ⟨"", false⟩
  | .null => .ok ⟨"", false⟩
  | _ => .error "json: cannot unmarshal value into Result"

/-- Zero FactResult. -/
def FactResult.zero : FactResult := ⟨"", "", "", none, none, GoTime.zero, none⟩

/-- Single-key update for FactResult. -/
def setFactResult (s : FactResult) (k : String) (v : Json) : Except String FactResult :=
  if foldEq k "uuid" then do
    let x ← decString s.UUID v; .ok {s with UUID := x}
  else if foldEq k "name" then do
    let x ← decString s.Name v; .ok {s with Name := x}
  else if foldEq k "fact" then do
    let x ← decString s.Fact v; .ok {s with Fact := x}
  else if foldEq k "valid_at" then do
    let x ← decOptTime v; .ok {s with ValidAt := x}
  else if foldEq k "invalid_at" then do
    let x ← decOptTime v; .ok {s with InvalidAt := x}
  else if foldEq k "created_at" then do
    let x ← decTime s.CreatedAt v; .ok {s with CreatedAt := x}
  else if foldEq k "expired_at" then do
    let x ← decOptTime v; .ok {s with ExpiredAt := x}
  else .ok s

/-- Unmarshal a FactResult. -/
def decodeFactResult : Json → Except String FactResult
  | .obj kvs => kvs.foldlM (fun s kv => setFactResult s kv.1 kv.2) FactResult.zero
  | .null => .ok FactResult.zero
  | _ => .error "json: cannot unmarshal value into FactResult"

/-- Unmarshal into a []FactResult field: null sets the slice to nil. -/
def decFactList : Json → Except String (List FactResult)
  | .null => .ok []
  | .arr xs => decList decodeFactResult xs
  | _ => .error "json: cannot unmarshal value into []FactResult"

/-- Single-key update for SearchResults. -/
def setSearchResults (s : SearchResults) (k : String) (v : Json) : Except String SearchResults :=
  if foldEq k "facts" then do
    let x ← decFactList v; .ok {s with Facts := x}
  else .ok s

/-- Unmarshal a SearchResults. -/
def decodeSearchResults : Json → Except String SearchResults
  | .obj kvs => kvs.foldlM (fun s kv => setSearchResults s kv.1 kv.2) ⟨[]⟩
  | .null => .ok ⟨[]⟩
  | _ => .error "json: cannot unmarshal value into SearchResults"

/-- Single-key update for GetMemoryResponse. -/
def setGetMemoryResponse (s : GetMemoryResponse) (k : String) (v : Json) :
    Except String GetMemoryResponse :=
  if foldEq k "facts" then do
    let x ← decFactList v; .ok {s with Facts := x}
  else .ok s

/-- Unmarshal a GetMemoryResponse. -/
def decodeGetMemoryResponse : Json → Except String GetMemoryResponse
  | .obj kvs => kvs.foldlM (fun s kv => setGetMemoryResponse s kv.1 kv.2) ⟨[]⟩
  | .null => .ok ⟨[]⟩
  | _ => .error "json: cannot unmarshal value into GetMemoryResponse"

/-- Zero EntityNode. -/
def EntityNode.zero : EntityNode := ⟨"", "", "", "", GoTime.zero, [], []⟩

/-- Single-key update for EntityNode. -/
def setEntityNode (s : EntityNode) (k : String) (v : Json) : Except String EntityNode :=
  if foldEq k "uuid" then do
    let x ← decString s.UUID v; .ok {s with UUID := x}
  else if foldEq k "group_id" then do
    let x ← decString s.GroupID v; .ok {s with GroupID := x}
  else if foldEq k "name" then do
    let x ← decString s.Name v; .ok {s with Name := x}
  else if foldEq k "summary" then do
    let x ← decString s.Summary v; .ok {s with Summary := x}
  else if foldEq k "created_at" then do
    let x ← decTime s.CreatedAt v; .ok {s with CreatedAt := x}
  else if foldEq k "labels" then do
    let x ← decStrList v; .ok {s with Labels := x}
  else if foldEq k "metadata" then do
    let x ← decMeta v; .ok {s with Metadata := x}
  else .ok s

/-- Unmarshal an EntityNode. -/
def decodeEntityNode : Json → Except String EntityNode
  | .obj kvs => kvs.foldlM (fun s kv => setEntityNode s kv.1 kv.2) EntityNode.zero
  | .null => .ok EntityNode.zero
  | _ => .error "json: cannot unmarshal value into EntityNode"

/-- Zero Episode. -/
def Episode.zero : Episode := ⟨"", "", "", "", "", "", GoTime.zero, GoTime.zero, []⟩

/-- Single-key update for Episode. -/
def setEpisode (s : Episode) (k : String) (v : Json) : Except String Episode :=
  if foldEq k "uuid" then do
    let x ← decString s.UUID v; .ok {s with UUID := x}
  else if foldEq k "group_id" then do
    let x ← decString s.GroupID v; .ok {s with GroupID := x}
  else if foldEq k "name" then do
    let x ← decString s.Name v; .ok {s with Name := x}
  else if foldEq k "content" then do
    let x ← decString s.Content v; .ok {s with Content := x}
  else if foldEq k "source" then do
    let x ← decString s.Source v; .ok {s with Source := x}
  else if foldEq k "source_description" then do
    let x ← decString s.SourceDescription v; .ok {s with SourceDescription := x}
  else if foldEq k "created_at" then do
    let x ← decTime s.CreatedAt v; .ok {s with CreatedAt := x}
  else if foldEq k "valid_at" then do
    let x ← decTime s.ValidAt v; .ok {s with ValidAt := x}
  else if foldEq k "metadata" then do
    let x ← decMeta v; .ok {s with Metadata := x}
  else .ok s

/-- Unmarshal an Episode. -/
def decodeEpisode : Json → Except String Episode
  | .obj kvs => kvs.foldlM (fun s kv => setEpisode s kv.1 kv.2) Episode.zero
  | .null => .ok Episode.zero
  | _ => .error "json: cannot unmarshal value into Episode"

/-- Unmarshal a []Episode (the destination of GetEpisodes): null leaves the
nil slice. -/
def decodeEpisodeList : Json → Except String (List Episode)
  | .null => .ok []
  | .arr xs => decList decodeEpisode xs
  | _ => .error "json: cannot unmarshal value into []Episode"

/-! JSON text parsing (the parse stage of json.NewDecoder(...).Decode).
Characters are compared through their code points to keep the source free of
delimiter literals. -/

/-- JSON whitespace (space, tab, line feed, carriage return). -/
def isJsonWs (c : Char) : Bool :=
  c.toNat == 32 || c.toNat == 9 || c.toNat == 10 || c.toNat == 13

/-- Drop leading JSON whitespace. -/
def skipWs : List Char → List Char
  | [] => []
  | c :: cs => if isJsonWs c then skipWs cs else c :: cs

/-- Parse the remainder of a string literal (opening quote already consumed),
returning content and rest.  Escapes: quote, backslash, slash, b, f, n, r, t
(the \u escape is rejected; no claim in scope exercises it). -/
def parseStrChars : List Char → Except String (List Char × List Char)
  | [] => .error "unexpected end of string literal"
  | c :: cs =>
    if c.toNat == 34 then .ok ([], cs)
    else if c.toNat == 92 then
      match cs with
      | [] => .error "unexpected end of escape"
      | e :: cs1 =>
        let cont := fun (r : Char) =>
          (parseStrChars cs1).map (fun p => (r :: p.1, p.2))
        if e.toNat == 34 then cont (Char.ofNat 34)
        else if e.toNat == 92 then cont (Char.ofNat 92)
        else if e.toNat == 47 then cont (Char.ofNat 47)
        else if e.toNat == 98 then cont (Char.ofNat 8)
        else if e.toNat == 102 then cont (Char.ofNat 12)
        else if e.toNat == 110 then cont (Char.ofNat 10)
        else if e.toNat == 114 then cont (Char.ofNat 13)
        else if e.toNat == 116 then cont (Char.ofNat 9)
        else .error "unsupported escape"
    else (parseStrChars cs).map (fun p => (c :: p.1, p.2))

/-- Accumulate decimal digits. -/
def parseDigits (acc : Nat) : List Char → Nat × List Char
  | [] => (acc, [])
  | c :: cs =>
    if 48 ≤ c.toNat && c.toNat ≤ 57 then parseDigits (acc * 10 + (c.toNat - 48)) cs
    else (acc, c :: cs)

/-- Does the input start with a decimal digit. -/
def startsDigit : List Char → Bool
  | [] => false
  | c :: _ => 48 ≤ c.toNat && c.toNat ≤ 57

/-- Does the input continue a number with a fraction or exponent part. -/
def startsFracOrExp : List Char → Bool
  | [] => false
  | c :: _ => c.toNat == 46 || c.toNat == 101 || c.toNat == 69

mutual

/-- Fuel-indexed recursive-descent parser for one JSON value, returning the
value and the unconsumed rest.  The number grammar is restricted to signed
integers (a fraction or exponent part is rejected rather than misread); no
claim in scope exercises non-integer numbers. -/
def parseVal : Nat → List Char → Except String (Json × List Char)
  | 0, _ => .error "json parser: out of fuel"
  | fuel + 1, cs =>
    match skipWs cs with
    | [] => .error "unexpected end of input"
    | c :: rest =>
      if c.toNat == 110 then
        match rest with
        | u :: l1 :: l2 :: r =>
          if u.toNat == 117 && l1.toNat == 108 && l2.toNat == 108 then .ok (.null, r)
          else .error "invalid literal"
        | _ => .error "invalid literal"
      else if c.toNat == 116 then
        match rest with
        | r1 :: u :: e :: r =>
          if r1.toNat == 114 && u.toNat == 117 && e.toNat == 101 then .ok (.bool true, r)
          else .error "invalid literal"
        | _ => .error "invalid literal"
      else if c.toNat == 102 then
        match rest with
        | a :: l :: s :: e :: r =>
          if a.toNat == 97 && l.toNat == 108 && s.toNat == 115 && e.toNat == 101 then
            .ok (.bool false, r)
          else .error "invalid literal"
        | _ => .error "invalid literal"
      else if c.toNat == 34 then
        (parseStrChars rest).map (fun p => (.str ⟨p.1⟩, p.2))
      else if c.toNat == 91 then
        match skipWs rest with
        | d :: r2 =>
          if d.toNat == 93 then .ok (.arr [], r2)
          else parseElems fuel (d :: r2)
        | [] => .error "unexpected end of array"
      else if c.toNat == 123 then
        match skipWs rest with
        | d :: r2 =>
          if d.toNat == 125 then .ok (.obj [], r2)
          else parseMembers fuel (d :: r2)
        | [] => .error "unexpected end of object"
      else if c.toNat == 45 then
        if startsDigit rest then
          let p := parseDigits 0 rest
          if startsFracOrExp p.2 then .error "unsupported number"
          else .ok (.num (-(p.1 : Int)), p.2)
        else .error "invalid number"
      else if 48 ≤ c.toNat && c.toNat ≤ 57 then
        let p := parseDigits 0 (c :: rest)
        if startsFracOrExp p.2 then .error "unsupported number"
        else .ok (.num (p.1 : Int), p.2)
      else .error "unexpected character"

/-- Parse one or more array elements and the closing bracket. -/
def parseElems : Nat → List Char → Except String (Json × List Char)
  | 0, _ => .error "json parser: out of fuel"
  | fuel + 1, cs => do
    let (v, r) ← parseVal fuel cs
    match skipWs r with
    | c :: r2 =>
      if c.toNat == 44 then do
        let (tail, r3) ← parseElems fuel r2
        match tail with
        | .arr xs => .ok (.arr (v :: xs), r3)
        | _ => .error "json parser: internal"
      else if c.toNat == 93 then .ok (.arr [v], r2)
      else .error "expected comma or end of array"
    | [] => .error "unexpected end of array"

/-- Parse one or more object members and the closing brace. -/
def parseMembers : Nat → List Char → Except String (Json × List Char)
  | 0, _ => .error "json parser: out of fuel"
  | fuel + 1, cs =>
    match skipWs cs with
    | c :: rest =>
      if c.toNat == 34 then do
        let (kc, r1) ← parseStrChars rest
        match skipWs r1 with
        | d :: r2 =>
          if d.toNat == 58 then do
            let (v, r3) ← parseVal fuel r2
            match skipWs r3 with
            | e :: r4 =>
              if e.toNat == 44 then do
                let (tail, r5) ← parseMembers fuel r4
                match tail with
                | .obj kvs => .ok (.obj ((⟨kc⟩, v) :: kvs), r5)
                | _ => .error "json parser: internal"
              else if e.toNat == 125 then .ok (.obj [(⟨kc⟩, v)], r4)
              else .error "expected comma or end of object"
            | [] => .error "unexpected end of object"
          else .error "expected colon"
        | [] => .error "unexpected end of object"
      else .error "expected object key"
    | [] => .error "unexpected end of object"

end

/-- Parse the first JSON value of the text (as json.Decoder.Decode does:
leading whitespace allowed, trailing data left unread). -/
def parseJson (s : String) : Except String Json :=
  (parseVal (2 * s.data.length + 2) s.data).map Prod.fst

/-- json.NewDecoder(resp.Body).Decode(result) for a destination decoded by
`dec`: parse the body text, then unmarshal. -/
def goDecode (dec : Json → Except String α) (body : String) : Except String α :=
  (parseJson body).bind dec

/-! Model of net/url.PathEscape, at the level of UTF-8 bytes. -/

/-- UTF-8 bytes of one character. -/
def charUTF8 (c : Char) : List Nat :=
  if c.toNat < 128 then [c.toNat]
  else if c.toNat < 2048 then [192 + c.toNat / 64, 128 + c.toNat % 64]
  else if c.toNat < 65536 then
    [224 + c.toNat / 4096, 128 + (c.toNat / 64) % 64, 128 + c.toNat % 64]
  else
    [240 + c.toNat / 262144, 128 + (c.toNat / 4096) % 64, 128 + (c.toNat / 64) % 64,
      128 + c.toNat % 64]

/-- UTF-8 bytes of a string. -/
def strBytes (s : String) : List Nat :=
  s.data.foldr (fun c acc => charUTF8 c ++ acc) []

/-- Upper-case hex digit byte for a nibble (net/url uses "0123456789ABCDEF"). -/
def hexUpper (n : Nat) : Nat := if n < 10 then 48 + n else 55 + n

/-- net/url shouldEscape in encodePathSegment mode: keep alphanumerics, the
marks - _ . ~ and the reserved characters dollar & + : = at-sign; escape
slash ; , ? and everything else. -/
def shouldEscapePathSegment (b : Nat) : Bool :=
  if (97 ≤ b && b ≤ 122) || (65 ≤ b && b ≤ 90) || (48 ≤ b && b ≤ 57) then false
  else if b == 45 || b == 95 || b == 46 || b == 126 then false
  else if b == 36 || b == 38 || b == 43 || b == 58 || b == 61 || b == 64 then false
  else true

/-- Escape one byte: percent plus two upper-case hex digits, or the byte. -/
def escByte (b : Nat) : List Nat :=
  if shouldEscapePathSegment b then [37, hexUpper (b / 16), hexUpper (b % 16)] else [b]

/-- Escape a byte sequence. -/
def pathEscapeBytes : List Nat → List Nat
  | [] => []
  | b :: bs => escByte b ++ pathEscapeBytes bs

/-- String from a list of (ASCII) byte values. -/
def stringOfBytes (bs : List Nat) : String := ⟨bs.map Char.ofNat⟩

/-- Model of url.PathEscape. -/
def pathEscape (s : String) : String := stringOfBytes (pathEscapeBytes (strBytes s))

/-! Path construction of the endpoint methods (the fmt.Sprintf lines of
client.go). -/

/-- Path built by GetEntityEdge. -/
def getEntityEdgePath (uuid : String) : String := "/entity-edge/" ++ pathEscape uuid

/-- Path built by GetEpisodes (lastN rendered as %d renders a Go int). -/
def getEpisodesPath (groupID : String) (lastN : Int) : String :=
  "/episodes/" ++ pathEscape groupID ++ "?last_n=" ++ toString lastN

/-- Path built by DeleteEntityEdge. -/
def deleteEntityEdgePath (uuid : String) : String := "/entity-edge/" ++ pathEscape uuid

/-- Path built by DeleteGroup. -/
def deleteGroupPath (groupID : String) : String := "/group/" ++ pathEscape groupID

/-- Path built by DeleteEpisode. -/
def deleteEpisodePath (uuid : String) : String := "/episode/" ++ pathEscape uuid

/-! The generic request executor (*Client).do and the endpoint methods. -/

/-- Transport round-trip result: the status code and the outcome of reading
the response body: `body` is the text obtained, `readErr` is true when the
read itself failed after yielding that prefix. -/
structure HttpResponse where
  status : Nat
  body : String
  readErr : Bool
deriving DecidableEq

/-- Error kinds produced by do, carrying what each fmt.Errorf carries. -/
inductive DoError where
  | marshalErr (msg : String)
  | requestErr (msg : String)
  | transportErr (msg : String)
  | apiStatusErr (status : Nat) (body : String)
  | decodeErr (msg : String)
deriving DecidableEq

/-- Error message text, mirroring the fmt.Errorf format strings of client.go. -/
def DoError.message : DoError → String
  | .marshalErr m => "failed to marshal request body: " ++ m
  | .requestErr m => "failed to create request: " ++ m
  | .transportErr m => "failed to perform request: " ++ m
  | .apiStatusErr st b => "API request failed with status " ++ toString st ++ ": " ++ b
  | .decodeErr m => "failed to decode response: " ++ m

/-- Executor outcome: the result, the path of the request handed to the
transport (none when no request was executed), and how many times the
response body was closed. -/
structure DoOutcome (α : Type) where
  result : Except DoError (Option α)
  sentPath : Option String
  bodyCloses : Nat

/-- Shallow embedding of (*Client).do.  `marshal` is the json.Marshal outcome
when a body value is given (none models body == nil), `mkReq` the
http.NewRequest outcome, `transport` the round-trip outcome, `dec` the
decoder for the destination (none models result == nil).  The deferred
resp.Body.Close() is accounted by bodyCloses; in the non-2xx branch the
io.ReadAll error is discarded (`bodyBytes, _ := io.ReadAll(resp.Body)`) and
the text prefix obtained is used, which is why resp.readErr is not consulted. -/
def doReq (marshal : Option (Except String Json)) (path : String)
    (mkReq : Except String Unit) (transport : Except String HttpResponse)
    (dec : Option (String → Except String α)) : DoOutcome α :=
  match marshal with
  | some (.error e) => ⟨.error (.marshalErr e), none, 0⟩
  | _ =>
    match mkReq with
    | .error e => ⟨.error (.requestErr e), none, 0⟩
    | .ok _ =>
      match transport with
      | .error e => ⟨.error (.transportErr e), some path, 0⟩
      | .ok resp =>
        if resp.status < 200 ∨ 300 ≤ resp.status then
          ⟨.error (.apiStatusErr resp.status resp.body), some path, 1⟩
        else
          match dec with
          | none => ⟨.ok none, some path, 1⟩
          | some d =>
            match d resp.body with
            | .error e => ⟨.error (.decodeErr e), some path, 1⟩
            | .ok v => ⟨.ok (some v), some path, 1⟩

/-- The uniform `if err := c.do(...); err != nil \x7b return nil, err \x7d;
return &result, nil` pattern of every endpoint method. -/
def wrapRes : Except DoError (Option α) → Option α × Option DoError
  | .error e => (none, some e)
  | .ok v => (v, none)

/-- HealthCheck method. -/
def healthCheckM (mk : Except String Unit) (tr : Except String HttpResponse) :
    Option HealthCheckResponse × Option DoError :=
  wrapRes (doReq none "/healthcheck" mk tr (some (goDecode decodeHealthCheckResponse))).result

/-- Search method. -/
def searchM (query : SearchQuery) (mk : Except String Unit) (tr : Except String HttpResponse) :
    Option SearchResults × Option DoError :=
  wrapRes (doReq (some (.ok (encodeSearchQuery query))) "/search" mk tr
    (some (goDecode decodeSearchResults))).result

/-- GetEntityEdge method. -/
def getEntityEdgeM (uuid : String) (mk : Except String Unit) (tr : Except String HttpResponse) :
    Option FactResult × Option DoError :=
  wrapRes (doReq none (getEntityEdgePath uuid) mk tr (some (goDecode decodeFactResult))).result

/-- GetEpisodes method. -/
def getEpisodesM (groupID : String) (lastN : Int) (mk : Except String Unit)
    (tr : Except String HttpResponse) : Option (List Episode) × Option DoError :=
  wrapRes (doReq none (getEpisodesPath groupID lastN) mk tr
    (some (goDecode decodeEpisodeList))).result

/-- GetMemory method. -/
def getMemoryM (request : GetMemoryRequest) (mk : Except String Unit)
    (tr : Except String HttpResponse) : Option GetMemoryResponse × Option DoError :=
  wrapRes (doReq (some (.ok (encodeGetMemoryRequest request))) "/get-memory" mk tr
    (some (goDecode decodeGetMemoryResponse))).result

/-- AddMessages method. -/
def addMessagesM (request : AddMessagesRequest) (mk : Except String Unit)
    (tr : Except String HttpResponse) : Option Result × Option DoError :=
  wrapRes (doReq (some (.ok (encodeAddMessagesRequest request))) "/messages" mk tr
    (some (goDecode decodeResult))).result

/-- AddEntityNode method. -/
def addEntityNodeM (request : AddEntityNodeRequest) (mk : Except String Unit)
    (tr : Except String HttpResponse) : Option EntityNode × Option DoError :=
  wrapRes (doReq (some (.ok (encodeAddEntityNodeRequest request))) "/entity-node" mk tr
    (some (goDecode decodeEntityNode))).result

/-- DeleteEntityEdge method. -/
def deleteEntityEdgeM (uuid : String) (mk : Except String Unit)
    (tr : Except String HttpResponse) : Option Result × Option DoError :=
  wrapRes (doReq none (deleteEntityEdgePath uuid) mk tr (some (goDecode decodeResult))).result

/-- DeleteGroup method. -/
def deleteGroupM (groupID : String) (mk : Except String Unit)
    (tr : Except String HttpResponse) : Option Result × Option DoError :=
  wrapRes (doReq none (deleteGroupPath groupID) mk tr (some (goDecode decodeResult))).result

/-- DeleteEpisode method. -/
def deleteEpisodeM (uuid : String) (mk : Except String Unit)
    (tr : Except String HttpResponse) : Option Result × Option DoError :=
  wrapRes (doReq none (deleteEpisodePath uuid) mk tr (some (goDecode decodeResult))).result

/-- Clear method (POST with nil body). -/
def clearM (mk : Except String Unit) (tr : Except String HttpResponse) :
    Option Result × Option DoError :=
  wrapRes (doReq none "/clear" mk tr (some (goDecode decodeResult))).result

/-- Modelled from the spec: the advanced search methods
(TemporalWindowSearch, EntityRelationshipsSearch, DiverseResultsSearch,
EpisodeContextSearch, SuccessfulToolsSearch, RecentContextSearch,
EntityByLabelSearch) are part of the repository but their file is not among
the provided sources; per the spec each is a one-to-one binding of the
executor to one POST path with a marshalled request body and a decoded
response, returning the generic (nil result, error) pattern on failure.
Encoder, path and decoder are the per-method parameters of that binding. -/
def advancedSearchM {ρ α : Type} (enc : ρ → Json) (path : String) (request : ρ)
    (dec : String → Except String α) (mk : Except String Unit)
    (tr : Except String HttpResponse) : Option α × Option DoError :=
  wrapRes (doReq (some (.ok (enc request))) path mk tr (some dec)).result

/-! Client construction.  http.Client objects live on an explicit heap so
that the in-place Timeout mutation of WithTimeout is observable through the
the reference held by the caller. -/

/-- time.Second in nanoseconds (time.Duration is an int64 nanosecond count). -/
def timeSecond : Int := 1000000000

/-- Model of an http.Client object: Timeout plus the remaining fields
(Transport, CheckRedirect, Jar) held abstract, to state frame conditions. -/
structure HttpClientObj where
  transport : Nat
  checkRedirect : Nat
  jar : Nat
  timeout : Int
deriving DecidableEq

/-- Heap of http.Client objects; a pointer is an index. -/
structure Heap where
  objs : List HttpClientObj
deriving DecidableEq

/-- Allocate a fresh object, returning the new heap and its pointer. -/
def Heap.alloc (h : Heap) (o : HttpClientObj) : Heap × Nat :=
  (⟨h.objs ++ [o]⟩, h.objs.length)

/-- Dereference (out-of-range reads a zero object; never reached on the
pointers the theorems quantify over). -/
def Heap.get (h : Heap) (p : Nat) : HttpClientObj := h.objs.getD p ⟨0, 0, 0, 0⟩

/-- Store through a pointer. -/
def Heap.set (h : Heap) (p : Nat) (o : HttpClientObj) : Heap := ⟨h.objs.set p o⟩

/-- The Client struct: base URL and the httpClient pointer. -/
structure ClientR where
  baseURL : String
  httpClient : Nat
deriving DecidableEq

/-- The two ClientOption constructors of client.go. -/
inductive ClientOption where
  | withHTTPClient (p : Nat)
  | withTimeout (t : Int)
deriving DecidableEq

/-- Apply one option: WithHTTPClient replaces the pointer; WithTimeout writes
the Timeout field of the currently referenced object in place. -/
def applyOption : ClientOption → ClientR × Heap → ClientR × Heap
  | .withHTTPClient p, (c, h) => ({c with httpClient := p}, h)
  | .withTimeout t, (c, h) =>
      (c, h.set c.httpClient {h.get c.httpClient with timeout := t})

/-- Shallow embedding of NewClient: allocate a default http.Client with a
30-second timeout, then fold the options in order.  Total: no validation of
baseURL, no failure path. -/
def newClient (baseURL : String) (opts : List ClientOption) (h : Heap) : ClientR × Heap :=
  let ah := h.alloc ⟨0, 0, 0, 30 * timeSecond⟩
  opts.foldl (fun s o => applyOption o s) ({baseURL := baseURL, httpClient := ah.2}, ah.1)

/-- Substring test used to state that an error text mentions a fragment. -/
def subSeq : List Char → List Char → Bool
  | n, [] => n.isEmpty
  | n, c :: t => n.isPrefixOf (c :: t) || subSeq n t

/-- Does s contain sub as a contiguous substring. -/
def strContains (s sub : String) : Bool := subSeq sub.data s.data

/-- Fields of a JSON object (empty for non-objects). -/
def jsonFields : Json → List (String × Json)
  | .obj kvs => kvs
  | _ => []

/-- Claim C1, counterexample: marshalling a GetMemoryRequest whose
CenterNodeUUID is nil emits the key center_node_uuid with a null value —
the key does appear, with null, contradicting the claim that every unset
optional field is omitted. -/
theorem c1_counterexample :
    encodeGetMemoryRequest ⟨"g", 0, none, [], none⟩ =
      Json.obj [("group_id", .str "g"), ("center_node_uuid", .null), ("messages", .arr [])] ∧
    "center_node_uuid" ∈ jsonKeys (encodeGetMemoryRequest ⟨"g", 0, none, [], none⟩) := by
  exact ⟨rfl, by decide⟩

/-- Claim C1 as amended: for every request struct, the marshalled key list is
exactly the required keys plus the omitempty-tagged optional keys that are
set — every unset omitempty optional is omitted — with the one exception of
GetMemoryRequest.CenterNodeUUID, whose tag has no omitempty: its key is
always present, and carries null when the pointer is nil. -/
theorem c1_amended :
    (∀ m : Message, jsonKeys (encodeMessage m) =
      ["content"] ++ (if m.UUID.isSome then ["uuid"] else [])
        ++ (if m.Name == "" then [] else ["name"]) ++ ["author", "timestamp"]
        ++ (if m.SourceDescription == "" then [] else ["source_description"])) ∧
    (∀ q : SearchQuery, jsonKeys (encodeSearchQuery q) =
      (if q.GroupIDs.isSome then ["group_ids"] else []) ++ ["query"]
        ++ (if q.MaxFacts == 0 then [] else ["max_facts"])
        ++ (if q.Observation.isSome then ["observation"] else [])) ∧
    (∀ r : GetMemoryRequest, jsonKeys (encodeGetMemoryRequest r) =
      ["group_id"] ++ (if r.MaxFacts == 0 then [] else ["max_facts"])
        ++ ["center_node_uuid", "messages"]
        ++ (if r.Observation.isSome then ["observation"] else [])) ∧
    (∀ g mf msgs ob, ("center_node_uuid", Json.null) ∈
      jsonFields (encodeGetMemoryRequest ⟨g, mf, none, msgs, ob⟩)) ∧
    (∀ r : AddMessagesRequest, jsonKeys (encodeAddMessagesRequest r) =
      ["group_id", "messages"] ++ (if r.Observation.isSome then ["observation"] else [])) ∧
    (∀ r : AddEntityNodeRequest, jsonKeys (encodeAddEntityNodeRequest r) =
      ["uuid", "group_id", "name"] ++ (if r.Summary == "" then [] else ["summary"])
        ++ (if r.Observation.isSome then ["observation"] else [])) ∧
    (∀ r : TemporalSearchRequest, jsonKeys (encodeTemporalSearchRequest r) =
      ["query"] ++ (if r.GroupID.isSome then ["group_id"] else [])
        ++ ["time_start", "time_end"]
        ++ (if r.MaxResults == 0 then [] else ["max_results"])) ∧
    (∀ r : EntityRelationshipSearchRequest, jsonKeys (encodeEntityRelationshipSearchRequest r) =
      ["query"] ++ (if r.GroupID.isSome then ["group_id"] else []) ++ ["center_node_uuid"]
        ++ (if r.MaxDepth == 0 then [] else ["max_depth"])
        ++ (if r.NodeLabels.isSome then ["node_labels"] else [])
        ++ (if r.EdgeTypes.isSome then ["edge_types"] else [])
        ++ (if r.MaxResults == 0 then [] else ["max_results"])) ∧
    (∀ r : DiverseSearchRequest, jsonKeys (encodeDiverseSearchRequest r) =
      ["query"] ++ (if r.GroupID.isSome then ["group_id"] else [])
        ++ (if r.DiversityLevel == "" then [] else ["diversity_level"])
        ++ (if r.MaxResults == 0 then [] else ["max_results"])) ∧
    (∀ r : EpisodeContextSearchRequest, jsonKeys (encodeEpisodeContextSearchRequest r) =
      ["query"] ++ (if r.GroupID.isSome then ["group_id"] else [])
        ++ (if r.AgentTypes.isSome then ["agent_types"] else [])
        ++ (if r.IncludeToolCalls then ["include_tool_calls"] else [])
        ++ (if r.MaxResults == 0 then [] else ["max_results"])) ∧
    (∀ r : SuccessfulToolsSearchRequest, jsonKeys (encodeSuccessfulToolsSearchRequest r) =
      ["query"] ++ (if r.GroupID.isSome then ["group_id"] else [])
        ++ (if r.ToolNames.isSome then ["tool_names"] else [])
        ++ (if r.MinMentions == 0 then [] else ["min_mentions"])
        ++ (if r.MaxResults == 0 then [] else ["max_results"])) ∧
    (∀ r : RecentContextSearchRequest, jsonKeys (encodeRecentContextSearchRequest r) =
      ["query"] ++ (if r.GroupID.isSome then ["group_id"] else [])
        ++ (if r.RecencyWindow == "" then [] else ["recency_window"])
        ++ (if r.MaxResults == 0 then [] else ["max_results"])) ∧
    (∀ r : EntityByLabelSearchRequest, jsonKeys (encodeEntityByLabelSearchRequest r) =
      ["query"] ++ (if r.GroupID.isSome then ["group_id"] else []) ++ ["node_labels"]
        ++ (if r.EdgeTypes.isSome then ["edge_types"] else [])
        ++ (if r.MaxResults == 0 then [] else ["max_results"])) := by
  refine ⟨?_, ?_, ?_, ?_, ?_, ?_, ?_, ?_, ?_, ?_, ?_, ?_, ?_⟩
  · rintro ⟨c, _ | u, n, a, t, sd⟩ <;>
      simp only [encodeMessage, jsonKeys, optField, strOmit, List.map_append] <;>
      split_ifs <;> simp_all
  · rintro ⟨_ | g, qy, mf, _ | ob⟩ <;>
      simp only [encodeSearchQuery, jsonKeys, optField, intOmit, List.map_append] <;>
      split_ifs <;> simp_all
  · rintro ⟨g, mf, c, ms, _ | ob⟩ <;>
      simp only [encodeGetMemoryRequest, jsonKeys, optField, intOmit, List.map_append] <;>
      split_ifs <;> simp_all
  · intro g mf msgs ob
    rcases ob with _ | o <;>
      simp only [encodeGetMemoryRequest, jsonFields, optField, intOmit] <;>
      split_ifs <;> simp_all
  · rintro ⟨g, ms, _ | ob⟩ <;>
      simp [encodeAddMessagesRequest, jsonKeys, optField]
  · rintro ⟨u, g, n, s, _ | ob⟩ <;>
      simp only [encodeAddEntityNodeRequest, jsonKeys, optField, strOmit, List.map_append] <;>
      split_ifs <;> simp_all
  · rintro ⟨qy, _ | g, ts, te, mr⟩ <;>
      simp only [encodeTemporalSearchRequest, jsonKeys, optField, intOmit, List.map_append] <;>
      split_ifs <;> simp_all
  · rintro ⟨qy, _ | g, c, md, _ | nl, _ | et, mr⟩ <;>
      simp only [encodeEntityRelationshipSearchRequest, jsonKeys, optField, intOmit,
        List.map_append] <;>
      split_ifs <;> simp_all
  · rintro ⟨qy, _ | g, dl, mr⟩ <;>
      simp only [encodeDiverseSearchRequest, jsonKeys, optField, intOmit, strOmit,
        List.map_append] <;>
      split_ifs <;> simp_all
  · rintro ⟨qy, _ | g, _ | at_, itc, mr⟩ <;>
      simp only [encodeEpisodeContextSearchRequest, jsonKeys, optField, intOmit, boolOmit,
        List.map_append] <;>
      split_ifs <;> simp_all
  · rintro ⟨qy, _ | g, _ | tn, mm, mr⟩ <;>
      simp only [encodeSuccessfulToolsSearchRequest, jsonKeys, optField, intOmit,
        List.map_append] <;>
      split_ifs <;> simp_all
  · rintro ⟨qy, _ | g, rw, mr⟩ <;>
      simp only [encodeRecentContextSearchRequest, jsonKeys, optField, intOmit, strOmit,
        List.map_append] <;>
      split_ifs <;> simp_all
  · rintro ⟨qy, _ | g, nl, _ | et, mr⟩ <;>
      simp only [encodeEntityByLabelSearchRequest, jsonKeys, optField, intOmit,
        List.map_append] <;>
      split_ifs <;> simp_all

/-- Computation of do once marshalling and request construction have
succeeded and the transport has returned a response. -/
lemma doReq_resp {α : Type} (m : Option (Except String Json)) (path : String)
    (resp : HttpResponse) (dcd : Option (String → Except String α))
    (hm : ∀ e, m ≠ some (.error e)) :
    doReq m path (.ok ()) (.ok resp) dcd =
      if resp.status < 200 ∨ 300 ≤ resp.status then
        ⟨.error (.apiStatusErr resp.status resp.body), some path, 1⟩
      else
        match dcd with
        | none => ⟨.ok none, some path, 1⟩
        | some d =>
          match d resp.body with
          | .error e => ⟨.error (.decodeErr e), some path, 1⟩
          | .ok v => ⟨.ok (some v), some path, 1⟩ := by
  rcases m with _ | m
  · rfl
  · rcases m with e | j
    · exact absurd rfl (hm e)
    · rfl

/-- Computation of do with no destination, after a transport response. -/
lemma doReq_resp_none {α : Type} (m : Option (Except String Json)) (path : String)
    (resp : HttpResponse) (hm : ∀ e, m ≠ some (.error e)) :
    doReq (α := α) m path (.ok ()) (.ok resp) none =
      if resp.status < 200 ∨ 300 ≤ resp.status then
        ⟨.error (.apiStatusErr resp.status resp.body), some path, 1⟩
      else ⟨.ok none, some path, 1⟩ := by
  rcases m with _ | m
  · rfl
  · rcases m with e | j
    · exact absurd rfl (hm e)
    · rfl

/-- Computation of do with a destination decoder, after a transport response. -/
lemma doReq_resp_some {α : Type} (m : Option (Except String Json)) (path : String)
    (resp : HttpResponse) (d : String → Except String α) (hm : ∀ e, m ≠ some (.error e)) :
    doReq m path (.ok ()) (.ok resp) (some d) =
      if resp.status < 200 ∨ 300 ≤ resp.status then
        ⟨.error (.apiStatusErr resp.status resp.body), some path, 1⟩
      else
        match d resp.body with
        | .error e => ⟨.error (.decodeErr e), some path, 1⟩
        | .ok v => ⟨.ok (some v), some path, 1⟩ := by
  rcases m with _ | m
  · rfl
  · rcases m with e | j
    · exact absurd rfl (hm e)
    · rfl

/-- Claim C2: given that marshalling, request construction and transport
succeed, and that the destination decoder (when one is given) succeeds on
the response body, do fails exactly when the status code is outside
[200, 300), and then fails with the API-status error carrying the code and
the body text.  Concretely, through the Search method, a 404 response with
body \x7b"error":"not found"\x7d yields no result value together with an
error whose message mentions 404 and contains "not found". -/
theorem c2_status_code_contract {α : Type} (m : Option (Except String Json)) (path : String)
    (resp : HttpResponse) (dcd : Option (String → Except String α))
    (hm : ∀ e, m ≠ some (.error e))
    (hd : ∀ d, dcd = some d → ∃ v, d resp.body = Except.ok v) :
    ((∃ e, (doReq m path (.ok ()) (.ok resp) dcd).result = .error e) ↔
      (resp.status < 200 ∨ 300 ≤ resp.status)) ∧
    ((resp.status < 200 ∨ 300 ≤ resp.status) →
      (doReq m path (.ok ()) (.ok resp) dcd).result =
        .error (.apiStatusErr resp.status resp.body)) ∧
    (∀ q : SearchQuery,
      searchM q (.ok ()) (.ok ⟨404, "\x7b\"error\":\"not found\"\x7d", false⟩) =
        (none, some (.apiStatusErr 404 "\x7b\"error\":\"not found\"\x7d"))) ∧
    strContains (DoError.message (.apiStatusErr 404 "\x7b\"error\":\"not found\"\x7d"))
      "404" = true ∧
    strContains (DoError.message (.apiStatusErr 404 "\x7b\"error\":\"not found\"\x7d"))
      "not found" = true := by
  refine ⟨?_, ?_, fun q => rfl, by decide, by decide⟩
  · by_cases hs : resp.status < 200 ∨ 300 ≤ resp.status
    · rw [doReq_resp m path resp dcd hm, if_pos hs]
      exact ⟨fun _ => hs, fun _ => ⟨_, rfl⟩⟩
    · constructor
      · rintro ⟨e, he⟩
        exfalso
        rcases dcd with _ | d
        · rw [doReq_resp_none m path resp hm, if_neg hs] at he
          exact Except.noConfusion he
        · rcases hd d rfl with ⟨v, hv⟩
          rw [doReq_resp_some m path resp d hm, if_neg hs, hv] at he
          exact Except.noConfusion he
      · intro h
        exact absurd h hs
  · intro hs
    rw [doReq_resp m path resp dcd hm, if_pos hs]

/-- Witness for claim C2 at a concrete instance: a 404 response whose body
would decode fine still fails with the API-status error. -/
theorem c2_witness :
    (doReq none "/healthcheck" (.ok ()) (.ok ⟨404, "\x7b\"status\":\"ok\"\x7d", false⟩)
        (some (goDecode decodeHealthCheckResponse))).result =
      .error (.apiStatusErr 404 "\x7b\"status\":\"ok\"\x7d") :=
  (c2_status_code_contract none "/healthcheck" ⟨404, "\x7b\"status\":\"ok\"\x7d", false⟩
    (some (goDecode decodeHealthCheckResponse))
    (fun _ h => Option.noConfusion h)
    (fun d hdq => ⟨⟨"ok"⟩, by rw [← Option.some.inj hdq]; rfl⟩)).2.1 (Or.inr (by decide))

/-- On every error taken by an endpoint method, the Go return pattern gives
(nil, err). -/
lemma wrapRes_of_err {α : Type} (r : Except DoError (Option α)) (e : DoError)
    (h : (wrapRes r).2 = some e) : (wrapRes r).1 = none := by
  rcases r with e1 | v
  · rfl
  · exact Option.noConfusion h

/-- Claim C3: every endpoint method that returns a non-nil error returns a
nil result — never a partially populated one. -/
theorem c3_error_means_nil_result :
    (∀ mk tr e, (healthCheckM mk tr).2 = some e → (healthCheckM mk tr).1 = none) ∧
    (∀ q mk tr e, (searchM q mk tr).2 = some e → (searchM q mk tr).1 = none) ∧
    (∀ u mk tr e, (getEntityEdgeM u mk tr).2 = some e → (getEntityEdgeM u mk tr).1 = none) ∧
    (∀ g n mk tr e, (getEpisodesM g n mk tr).2 = some e → (getEpisodesM g n mk tr).1 = none) ∧
    (∀ r mk tr e, (getMemoryM r mk tr).2 = some e → (getMemoryM r mk tr).1 = none) ∧
    (∀ r mk tr e, (addMessagesM r mk tr).2 = some e → (addMessagesM r mk tr).1 = none) ∧
    (∀ r mk tr e, (addEntityNodeM r mk tr).2 = some e → (addEntityNodeM r mk tr).1 = none) ∧
    (∀ u mk tr e, (deleteEntityEdgeM u mk tr).2 = some e → (deleteEntityEdgeM u mk tr).1 = none) ∧
    (∀ g mk tr e, (deleteGroupM g mk tr).2 = some e → (deleteGroupM g mk tr).1 = none) ∧
    (∀ u mk tr e, (deleteEpisodeM u mk tr).2 = some e → (deleteEpisodeM u mk tr).1 = none) ∧
    (∀ mk tr e, (clearM mk tr).2 = some e → (clearM mk tr).1 = none) ∧
    (∀ (ρ α : Type) (enc : ρ → Json) (path : String) (r : ρ)
        (dec : String → Except String α) mk tr e,
      (advancedSearchM enc path r dec mk tr).2 = some e →
        (advancedSearchM enc path r dec mk tr).1 = none) :=
  ⟨fun _ _ => wrapRes_of_err _, fun _ _ _ => wrapRes_of_err _, fun _ _ _ => wrapRes_of_err _,
   fun _ _ _ _ => wrapRes_of_err _, fun _ _ _ => wrapRes_of_err _, fun _ _ _ => wrapRes_of_err _,
   fun _ _ _ => wrapRes_of_err _, fun _ _ _ => wrapRes_of_err _, fun _ _ _ => wrapRes_of_err _,
   fun _ _ _ => wrapRes_of_err _, fun _ _ => wrapRes_of_err _,
   fun _ _ _ _ _ _ _ _ => wrapRes_of_err _⟩

/-- Witness for claim C3: a Search call failing in transport returns a nil
result. -/
theorem c3_witness :
    (searchM ⟨none, "q", 0, none⟩ (.ok ()) (.error "connection refused")).1 = none :=
  c3_error_means_nil_result.2.1 ⟨none, "q", 0, none⟩ (.ok ()) (.error "connection refused")
    (.transportErr "connection refused") rfl

/-- Claim C7: on every exit path of do on which the transport returned a
response — success, non-2xx status failure, decode failure, and the
no-destination case alike — the response body is closed exactly once. -/
theorem c7_body_closed_once {α : Type} (m : Option (Except String Json)) (path : String)
    (resp : HttpResponse) (dcd : Option (String → Except String α))
    (hm : ∀ e, m ≠ some (.error e)) :
    (doReq m path (.ok ()) (.ok resp) dcd).bodyCloses = 1 := by
  rcases dcd with _ | d
  · rw [doReq_resp_none m path resp hm]
    split <;> rfl
  · rw [doReq_resp_some m path resp d hm]
    split
    · rfl
    · split <;> rfl

/-- Witness for claim C7: a 200 response whose body fails to decode still
closes the body exactly once. -/
theorem c7_witness :
    (doReq none "/healthcheck" (.ok ()) (.ok ⟨200, "not json", false⟩)
      (some (goDecode decodeHealthCheckResponse))).bodyCloses = 1 :=
  c7_body_closed_once none "/healthcheck" ⟨200, "not json", false⟩
    (some (goDecode decodeHealthCheckResponse)) (fun _ h => Option.noConfusion h)

/-- Claim C10: in the non-2xx branch, a failure of the body read is silently
discarded: with readErr set the call still returns the API-status error
built from the code and the text prefix obtained, and the whole outcome is
the one of an untroubled read of that prefix. -/
theorem c10_read_failure_discarded {α : Type} (m : Option (Except String Json)) (path : String)
    (s : Nat) (b : String) (dcd : Option (String → Except String α))
    (hm : ∀ e, m ≠ some (.error e)) (hs : s < 200 ∨ 300 ≤ s) :
    (doReq m path (.ok ()) (.ok ⟨s, b, true⟩) dcd).result =
      .error (.apiStatusErr s b) ∧
    doReq m path (.ok ()) (.ok ⟨s, b, true⟩) dcd =
      doReq m path (.ok ()) (.ok ⟨s, b, false⟩) dcd := by
  have h1 : ((⟨s, b, true⟩ : HttpResponse).status < 200 ∨ 300 ≤ (⟨s, b, true⟩ : HttpResponse).status) := hs
  rw [doReq_resp m path ⟨s, b, true⟩ dcd hm, doReq_resp m path ⟨s, b, false⟩ dcd hm,
    if_pos h1]
  exact ⟨rfl, rfl⟩

/-- Witness for claim C10: a 500 response whose body read broke off after
"partial" still yields the API-status error with that prefix. -/
theorem c10_witness :
    (doReq (α := Result) none "/clear" (.ok ()) (.ok ⟨500, "partial", true⟩)
      (some (goDecode decodeResult))).result = .error (.apiStatusErr 500 "partial") :=
  (c10_read_failure_discarded none "/clear" 500 "partial" (some (goDecode decodeResult))
    (fun _ h => Option.noConfusion h) (Or.inr (by omega))).1

/-- One option application never touches the stored base URL. -/
lemma applyOption_baseURL (o : ClientOption) (s : ClientR × Heap) :
    (applyOption o s).1.baseURL = s.1.baseURL := by
  rcases o with p | t <;> rfl

/-- Folding options never touches the stored base URL. -/
lemma foldOptions_baseURL (opts : List ClientOption) (s : ClientR × Heap) :
    (opts.foldl (fun s o => applyOption o s) s).1.baseURL = s.1.baseURL := by
  induction opts generalizing s with
  | nil => rfl
  | cons o os ih => rw [List.foldl_cons, ih, applyOption_baseURL]

/-- Claim C6: with no options the transport timeout is 30 seconds; option
order decides overlaps — transport-after-timeout leaves the supplied
supplied transport state intact, timeout-after-transport writes the timeout on
the supplied transport — and construction is total, storing any base URL
verbatim with no validation. -/
theorem c6_construction_and_option_order :
    (∀ u h, ((newClient u [] h).2.get (newClient u [] h).1.httpClient).timeout =
      30 * timeSecond) ∧
    (∀ u h (p : Nat) (d : Int), p < h.objs.length →
      (newClient u [.withTimeout d, .withHTTPClient p] h).1.httpClient = p ∧
      (newClient u [.withTimeout d, .withHTTPClient p] h).2.get p = h.get p) ∧
    (∀ u h (p : Nat) (d : Int), p < h.objs.length →
      (newClient u [.withHTTPClient p, .withTimeout d] h).1.httpClient = p ∧
      ((newClient u [.withHTTPClient p, .withTimeout d] h).2.get p).timeout = d) ∧
    (∀ u opts h, (newClient u opts h).1.baseURL = u) := by
  refine ⟨?_, ?_, ?_, ?_⟩
  · intro u h
    simp [newClient, Heap.alloc, Heap.get, List.getD_eq_getElem?_getD,
      List.getElem?_concat_length]
  · intro u h p d hp
    refine ⟨rfl, ?_⟩
    show Heap.get ⟨((h.objs ++ [(⟨0, 0, 0, 30 * timeSecond⟩ : HttpClientObj)]).set h.objs.length _)⟩ p = h.get p
    simp [Heap.get, List.getD_eq_getElem?_getD,
      List.getElem?_set_ne (Nat.ne_of_gt hp), List.getElem?_append_left hp]
  · intro u h p d hp
    refine ⟨rfl, ?_⟩
    have hlen : p < ((h.objs ++ [(⟨0, 0, 0, 30 * timeSecond⟩ : HttpClientObj)]).length) := by
      simp
      omega
    show (Heap.get ⟨((h.objs ++ [(⟨0, 0, 0, 30 * timeSecond⟩ : HttpClientObj)]).set p _)⟩ p).timeout = d
    simp [Heap.get, List.getD_eq_getElem?_getD, List.getElem?_set_self hlen, Heap.alloc]
  · intro u opts h
    exact foldOptions_baseURL opts _

/-- Witness for claim C6 at a concrete heap: a caller transport with timeout
7 survives transport-after-timeout, and receives timeout 5 under
timeout-after-transport. -/
theorem c6_witness :
    (newClient "http://x" [.withTimeout 5, .withHTTPClient 0] ⟨[⟨1, 2, 3, 7⟩]⟩).2.get 0 =
      (⟨[⟨1, 2, 3, 7⟩]⟩ : Heap).get 0 ∧
    ((newClient "http://x" [.withHTTPClient 0, .withTimeout 5] ⟨[⟨1, 2, 3, 7⟩]⟩).2.get 0).timeout =
      5 :=
  ⟨(c6_construction_and_option_order.2.1 "http://x" ⟨[⟨1, 2, 3, 7⟩]⟩ 0 5 (by decide)).2,
   (c6_construction_and_option_order.2.2.1 "http://x" ⟨[⟨1, 2, 3, 7⟩]⟩ 0 5 (by decide)).2⟩

/-- Claim C9: applying set-timeout after set-transport writes the timeout
into the caller-supplied transport object in place — through the caller
pointer p the object now reads with the new timeout and every other
field (Transport, CheckRedirect, Jar) unchanged — and no other
caller-visible heap object is touched. -/
theorem c9_timeout_mutates_supplied_transport (u : String) (h : Heap) (p : Nat) (d : Int)
    (hp : p < h.objs.length) :
    (newClient u [.withHTTPClient p, .withTimeout d] h).2.get p =
      { h.get p with timeout := d } ∧
    (newClient u [.withHTTPClient p, .withTimeout d] h).1.httpClient = p ∧
    (∀ q, q ≠ p → q < h.objs.length →
      (newClient u [.withHTTPClient p, .withTimeout d] h).2.get q = h.get q) := by
  have hget : Heap.get ⟨h.objs ++ [(⟨0, 0, 0, 30 * timeSecond⟩ : HttpClientObj)]⟩ p = h.get p := by
    simp [Heap.get, List.getD_eq_getElem?_getD, List.getElem?_append_left hp]
  have hlen : p < ((h.objs ++ [(⟨0, 0, 0, 30 * timeSecond⟩ : HttpClientObj)]).length) := by
    simp
    omega
  refine ⟨?_, rfl, ?_⟩
  · show (Heap.get ⟨((h.objs ++ [(⟨0, 0, 0, 30 * timeSecond⟩ : HttpClientObj)]).set p _)⟩ p) = _
    rw [← hget]
    simp [Heap.get, List.getD_eq_getElem?_getD, List.getElem?_set_self hlen, Heap.alloc]
  · intro q hqp hq
    show (Heap.get ⟨((h.objs ++ [(⟨0, 0, 0, 30 * timeSecond⟩ : HttpClientObj)]).set p _)⟩ q) = _
    simp [Heap.get, List.getD_eq_getElem?_getD,
      List.getElem?_set_ne (fun hh => hqp hh.symm), List.getElem?_append_left hq]

/-- Witness for claim C9 at a concrete heap: the caller transport object
(at pointer 0, transport 1, checkRedirect 2, jar 3, timeout 7) is observed
after construction as the same object with timeout 5. -/
theorem c9_witness :
    (newClient "http://x" [.withHTTPClient 0, .withTimeout 5] ⟨[⟨1, 2, 3, 7⟩]⟩).2.get 0 =
      ⟨1, 2, 3, 5⟩ :=
  (c9_timeout_mutates_supplied_transport "http://x" ⟨[⟨1, 2, 3, 7⟩]⟩ 0 5 (by decide)).1

/-- toNat of Char.ofNat at a valid code point. -/
lemma char_toNat_ofNat (n : Nat) (h : Nat.isValidChar n) : (Char.ofNat n).toNat = n := by
  simp [Char.ofNat, h, Char.ofNatAux, Char.toNat, UInt32.toNat]

/-- Every character code point is below 0x110000. -/
lemma char_toNat_lt (c : Char) : c.toNat < 1114112 := by
  have hv := c.valid
  rcases hv with h | ⟨h1, h2⟩ <;> simp [Char.toNat] at * <;> omega

/-- UTF-8 bytes are below 256. -/
lemma charUTF8_lt (c : Char) : ∀ b ∈ charUTF8 c, b < 256 := by
  intro b hb
  have hc := char_toNat_lt c
  unfold charUTF8 at hb
  split_ifs at hb with h1 h2 h3
  · simp at hb
    omega
  · simp at hb
    rcases hb with rfl | rfl <;> omega
  · simp at hb
    rcases hb with rfl | rfl | rfl <;> omega
  · simp at hb
    rcases hb with rfl | rfl | rfl | rfl <;> omega

/-- Bytes of a string are below 256. -/
lemma strBytes_lt (s : String) : ∀ b ∈ strBytes s, b < 256 := by
  unfold strBytes
  generalize s.data = l
  induction l with
  | nil => simp
  | cons c cs ih =>
    intro b hb
    simp only [List.foldr_cons, List.mem_append] at hb
    rcases hb with hb | hb
    · exact charUTF8_lt c b hb
    · exact ih b hb

/-- An upper-case hex digit byte is never the slash byte 47. -/
lemma hexUpper_ne_47 (n : Nat) : hexUpper n ≠ 47 := by
  unfold hexUpper
  split <;> omega

/-- An upper-case hex digit byte of a nibble is ASCII. -/
lemma hexUpper_lt (n : Nat) (h : n ≤ 15) : hexUpper n < 128 := by
  unfold hexUpper
  split <;> omega

/-- A byte PathEscape keeps verbatim is ASCII and is not a slash. -/
lemma not_escaped_facts (b : Nat) (h : shouldEscapePathSegment b = false) :
    b ≤ 126 ∧ b ≠ 47 := by
  unfold shouldEscapePathSegment at h
  split_ifs at h with h1 h2 h3
  · simp at h1
    omega
  · simp at h2
    omega
  · simp at h3
    omega

/-- Member of an escByte output: either the kept byte or percent/hex bytes. -/
lemma escByte_mem (b x : Nat) (hx : x ∈ escByte b) :
    (x = b ∧ shouldEscapePathSegment b = false) ∨
      x = 37 ∨ x = hexUpper (b / 16) ∨ x = hexUpper (b % 16) := by
  unfold escByte at hx
  split_ifs at hx with h
  · simp only [List.mem_cons, List.not_mem_nil, or_false] at hx
    exact Or.inr hx
  · simp only [List.mem_cons, List.not_mem_nil, or_false] at hx
    rw [Bool.not_eq_true] at h
    exact Or.inl ⟨hx, h⟩

/-- The escaped byte sequence never contains the slash byte. -/
lemma pathEscapeBytes_no_slash (bs : List Nat) : 47 ∉ pathEscapeBytes bs := by
  induction bs with
  | nil => simp [pathEscapeBytes]
  | cons b bs ih =>
    simp only [pathEscapeBytes, List.mem_append]
    rintro (hb | hb)
    · rcases escByte_mem b 47 hb with ⟨h1, h2⟩ | h1 | h1 | h1
      · exact (not_escaped_facts b h2).2 h1.symm
      · omega
      · exact hexUpper_ne_47 _ h1.symm
      · exact hexUpper_ne_47 _ h1.symm
    · exact ih hb

/-- The escaped byte sequence of a byte string is ASCII. -/
lemma pathEscapeBytes_lt (bs : List Nat) (hbs : ∀ b ∈ bs, b < 256) :
    ∀ x ∈ pathEscapeBytes bs, x < 128 := by
  induction bs with
  | nil => simp [pathEscapeBytes]
  | cons b bs ih =>
    intro x hx
    simp only [pathEscapeBytes, List.mem_append] at hx
    rcases hx with hx | hx
    · have hb := hbs b (by simp)
      rcases escByte_mem b x hx with ⟨h1, h2⟩ | h1 | h1 | h1
      · have := (not_escaped_facts b h2).1
        omega
      · omega
      · rw [h1]
        exact hexUpper_lt _ (by omega)
      · rw [h1]
        exact hexUpper_lt _ (by omega)
    · exact ih (fun y hy => hbs y (by simp [hy])) x hx

/-- PathEscape output never contains a slash character. -/
lemma pathEscape_no_slash (s : String) : ('/') ∉ (pathEscape s).data := by
  intro hmem
  have hex : ∃ b ∈ pathEscapeBytes (strBytes s), Char.ofNat b = '/' := by
    simpa [pathEscape, stringOfBytes, eq_comm] using hmem
  rcases hex with ⟨b, hb, heq⟩
  have hlt : b < 128 := pathEscapeBytes_lt _ (strBytes_lt s) b hb
  have hb47 : b = 47 := by
    have h1 := char_toNat_ofNat b (Or.inl (by omega))
    have h2 : ('/').toNat = 47 := by decide
    rw [← h1, heq, h2]
  exact pathEscapeBytes_no_slash _ (hb47 ▸ hb)

/-- Claim C5: every identifier embedded in a URL path segment is
percent-escaped before concatenation: the escaped text never contains a
slash, each of the five paths has exactly its two structural slashes
whatever the identifier (the GetEpisodes path keeps its two up to its query
string), and the identifier "a/b" concretely yields %2F in all five paths. -/
theorem c5_path_identifier_escaping :
    (∀ s : String, ('/') ∉ (pathEscape s).data) ∧
    (∀ u : String, (getEntityEdgePath u).data.count '/' = 2) ∧
    (∀ u : String, (deleteEntityEdgePath u).data.count '/' = 2) ∧
    (∀ g : String, (deleteGroupPath g).data.count '/' = 2) ∧
    (∀ u : String, (deleteEpisodePath u).data.count '/' = 2) ∧
    pathEscape "a/b" = "a%2Fb" ∧
    getEntityEdgePath "a/b" = "/entity-edge/a%2Fb" ∧
    getEpisodesPath "a/b" 5 = "/episodes/a%2Fb?last_n=5" ∧
    deleteEntityEdgePath "a/b" = "/entity-edge/a%2Fb" ∧
    deleteGroupPath "a/b" = "/group/a%2Fb" ∧
    deleteEpisodePath "a/b" = "/episode/a%2Fb" := by
  have hcount : ∀ (pre : String) (s : String), pre.data.count '/' = 2 →
      ((pre ++ pathEscape s).data.count '/' = 2) := by
    intro pre s hpre
    rw [String.data_append, List.count_append, hpre,
      List.count_eq_zero.mpr (pathEscape_no_slash s)]
  refine ⟨pathEscape_no_slash, ?_, ?_, ?_, ?_, by decide, by decide, by decide, by decide,
    by decide, by decide⟩
  · exact fun u => hcount "/entity-edge/" u (by decide)
  · exact fun u => hcount "/entity-edge/" u (by decide)
  · exact fun g => hcount "/group/" g (by decide)
  · exact fun u => hcount "/episode/" u (by decide)

/-- Element decoding undoes element encoding, over whole lists. -/
lemma decList_map (f : Json → Except String α) (enc : α → Json)
    (h : ∀ x, f (enc x) = .ok x) (xs : List α) : decList f (xs.map enc) = .ok xs := by
  induction xs with
  | nil => rfl
  | cons x xs ih => simp [decList, h, ih, Bind.bind, Except.bind]

/-- String-list decoding undoes string-list encoding. -/
lemma decStrList_strArr (xs : List String) : decStrList (strArr xs) = .ok xs := by
  have h : decStrList (strArr xs) = decList (decString "") (xs.map Json.str) := rfl
  rw [h, decList_map (decString "") Json.str (fun x => rfl) xs]

/-- Optional string-list decoding undoes string-list encoding. -/
lemma decOptStrList_strArr (xs : List String) : decOptStrList (strArr xs) = .ok (some xs) := by
  have h : decOptStrList (strArr xs) = some <$> decList (decString "") (xs.map Json.str) := rfl
  rw [h, decList_map (decString "") Json.str (fun x => rfl) xs]
  rfl

/-- Observation decoding undoes Observation encoding. -/
lemma roundtrip_Observation (o : Observation) :
    decodeObservation (encodeObservation o) = .ok o := by
  simp +decide [decodeObservation, encodeObservation, setObservation, decString, decTime,
    Bind.bind, Except.bind, Pure.pure, Except.pure]

/-- Optional-Observation decoding undoes Observation encoding. -/
lemma decOptObservation_encode (o : Observation) :
    decOptObservation (encodeObservation o) = .ok (some o) := by
  have h : decOptObservation (encodeObservation o) =
      some <$> decodeObservation (encodeObservation o) := rfl
  rw [h, roundtrip_Observation o]
  rfl

/-- Message decoding undoes Message encoding. -/
lemma roundtrip_Message (m : Message) : decodeMessage (encodeMessage m) = .ok m := by
  rcases m with ⟨c, u, n, a, t, sd⟩
  rcases u with _ | u <;> cases hn : (n == "") <;> cases hsd : (sd == "")
  all_goals try (have h1 : n = "" := by simpa using hn)
  all_goals try subst h1
  all_goals try (have h2 : sd = "" := by simpa using hsd)
  all_goals try subst h2
  all_goals
    simp +decide [decodeMessage, encodeMessage, optField, strOmit, hn, hsd, setMessage,
      decString, decTime, decOptString, Bind.bind, Except.bind, Pure.pure, Except.pure]

/-- Message-list decoding undoes Message-list encoding. -/
lemma decMsgList_encode (msgs : List Message) :
    decMsgList (.arr (msgs.map encodeMessage)) = .ok msgs := by
  have h : decMsgList (.arr (msgs.map encodeMessage)) =
      decList decodeMessage (msgs.map encodeMessage) := rfl
  rw [h, decList_map _ _ roundtrip_Message]

/-- SearchQuery decoding undoes SearchQuery encoding. -/
lemma roundtrip_SearchQuery (q : SearchQuery) :
    decodeSearchQuery (encodeSearchQuery q) = .ok q := by
  rcases q with ⟨gids, qy, mf, ob⟩
  rcases gids with _ | xs <;> rcases ob with _ | o <;> cases hmf : (mf == 0)
  all_goals try (have h0 : mf = 0 := by simpa using hmf)
  all_goals try subst h0
  all_goals
    simp +decide [decodeSearchQuery, encodeSearchQuery, optField, intOmit, hmf, setSearchQuery,
      decString, decInt, decOptStrList_strArr, decOptObservation_encode,
      Bind.bind, Except.bind, Pure.pure, Except.pure]

/-- GetMemoryRequest decoding undoes GetMemoryRequest encoding (the nil
CenterNodeUUID comes back as nil through the emitted null). -/
lemma roundtrip_GetMemoryRequest (r : GetMemoryRequest) :
    decodeGetMemoryRequest (encodeGetMemoryRequest r) = .ok r := by
  rcases r with ⟨g, mf, c, ms, ob⟩
  rcases c with _ | c <;> rcases ob with _ | o <;> cases hmf : (mf == 0)
  all_goals try (have h0 : mf = 0 := by simpa using hmf)
  all_goals try subst h0
  all_goals
    simp +decide [decodeGetMemoryRequest, encodeGetMemoryRequest, optField, intOmit, hmf,
      setGetMemoryRequest, decString, decInt, decOptString, decMsgList_encode,
      decOptObservation_encode, Bind.bind, Except.bind, Pure.pure, Except.pure]

/-- AddMessagesRequest decoding undoes AddMessagesRequest encoding. -/
lemma roundtrip_AddMessagesRequest (r : AddMessagesRequest) :
    decodeAddMessagesRequest (encodeAddMessagesRequest r) = .ok r := by
  rcases r with ⟨g, ms, ob⟩
  rcases ob with _ | o <;>
    simp +decide [decodeAddMessagesRequest, encodeAddMessagesRequest, optField,
      setAddMessagesRequest, decString, decMsgList_encode, decOptObservation_encode,
      Bind.bind, Except.bind, Pure.pure, Except.pure]

/-- AddEntityNodeRequest decoding undoes AddEntityNodeRequest encoding. -/
lemma roundtrip_AddEntityNodeRequest (r : AddEntityNodeRequest) :
    decodeAddEntityNodeRequest (encodeAddEntityNodeRequest r) = .ok r := by
  rcases r with ⟨u, g, n, s, ob⟩
  rcases ob with _ | o <;> cases hs : (s == "")
  all_goals try (have h0 : s = "" := by simpa using hs)
  all_goals try subst h0
  all_goals
    simp +decide [decodeAddEntityNodeRequest, encodeAddEntityNodeRequest, optField, strOmit, hs,
      setAddEntityNodeRequest, decString, decOptObservation_encode,
      Bind.bind, Except.bind, Pure.pure, Except.pure]

/-- TemporalSearchRequest decoding undoes its encoding. -/
lemma roundtrip_TemporalSearchRequest (r : TemporalSearchRequest) :
    decodeTemporalSearchRequest (encodeTemporalSearchRequest r) = .ok r := by
  rcases r with ⟨qy, g, ts, te, mr⟩
  rcases g with _ | g <;> cases hmr : (mr == 0)
  all_goals try (have h0 : mr = 0 := by simpa using hmr)
  all_goals try subst h0
  all_goals
    simp +decide [decodeTemporalSearchRequest, encodeTemporalSearchRequest, optField, intOmit,
      hmr, setTemporalSearchRequest, decString, decInt, decTime, decOptString,
      Bind.bind, Except.bind, Pure.pure, Except.pure]

/-- EntityRelationshipSearchRequest decoding undoes its encoding. -/
lemma roundtrip_EntityRelationshipSearchRequest (r : EntityRelationshipSearchRequest) :
    decodeEntityRelationshipSearchRequest (encodeEntityRelationshipSearchRequest r) = .ok r := by
  rcases r with ⟨qy, g, c, md, nl, et, mr⟩
  rcases g with _ | g <;> rcases nl with _ | nl <;> rcases et with _ | et <;>
    cases hmd : (md == 0) <;> cases hmr : (mr == 0)
  all_goals try (have h0 : md = 0 := by simpa using hmd)
  all_goals try subst h0
  all_goals try (have h1 : mr = 0 := by simpa using hmr)
  all_goals try subst h1
  all_goals
    simp +decide [decodeEntityRelationshipSearchRequest, encodeEntityRelationshipSearchRequest,
      optField, intOmit, hmd, hmr, setEntityRelationshipSearchRequest, decString, decInt,
      decOptString, decOptStrList_strArr, Bind.bind, Except.bind, Pure.pure, Except.pure]

/-- DiverseSearchRequest decoding undoes its encoding. -/
lemma roundtrip_DiverseSearchRequest (r : DiverseSearchRequest) :
    decodeDiverseSearchRequest (encodeDiverseSearchRequest r) = .ok r := by
  rcases r with ⟨qy, g, dl, mr⟩
  rcases g with _ | g <;> cases hdl : (dl == "") <;> cases hmr : (mr == 0)
  all_goals try (have h0 : dl = "" := by simpa using hdl)
  all_goals try subst h0
  all_goals try (have h1 : mr = 0 := by simpa using hmr)
  all_goals try subst h1
  all_goals
    simp +decide [decodeDiverseSearchRequest, encodeDiverseSearchRequest, optField, intOmit,
      strOmit, hdl, hmr, setDiverseSearchRequest, decString, decInt, decOptString,
      Bind.bind, Except.bind, Pure.pure, Except.pure]

/-- EpisodeContextSearchRequest decoding undoes its encoding. -/
lemma roundtrip_EpisodeContextSearchRequest (r : EpisodeContextSearchRequest) :
    decodeEpisodeContextSearchRequest (encodeEpisodeContextSearchRequest r) = .ok r := by
  rcases r with ⟨qy, g, ats, itc, mr⟩
  rcases g with _ | g <;> rcases ats with _ | ats <;> cases itc <;> cases hmr : (mr == 0)
  all_goals try (have h1 : mr = 0 := by simpa using hmr)
  all_goals try subst h1
  all_goals
    simp +decide [decodeEpisodeContextSearchRequest, encodeEpisodeContextSearchRequest,
      optField, intOmit, boolOmit, hmr, setEpisodeContextSearchRequest, decString, decInt,
      decBool, decOptString, decOptStrList_strArr, Bind.bind, Except.bind, Pure.pure,
      Except.pure]

/-- SuccessfulToolsSearchRequest decoding undoes its encoding. -/
lemma roundtrip_SuccessfulToolsSearchRequest (r : SuccessfulToolsSearchRequest) :
    decodeSuccessfulToolsSearchRequest (encodeSuccessfulToolsSearchRequest r) = .ok r := by
  rcases r with ⟨qy, g, tn, mm, mr⟩
  rcases g with _ | g <;> rcases tn with _ | tn <;> cases hmm : (mm == 0) <;>
    cases hmr : (mr == 0)
  all_goals try (have h0 : mm = 0 := by simpa using hmm)
  all_goals try subst h0
  all_goals try (have h1 : mr = 0 := by simpa using hmr)
  all_goals try subst h1
  all_goals
    simp +decide [decodeSuccessfulToolsSearchRequest, encodeSuccessfulToolsSearchRequest,
      optField, intOmit, hmm, hmr, setSuccessfulToolsSearchRequest, decString, decInt,
      decOptString, decOptStrList_strArr, Bind.bind, Except.bind, Pure.pure, Except.pure]

/-- RecentContextSearchRequest decoding undoes its encoding. -/
lemma roundtrip_RecentContextSearchRequest (r : RecentContextSearchRequest) :
    decodeRecentContextSearchRequest (encodeRecentContextSearchRequest r) = .ok r := by
  rcases r with ⟨qy, g, rw, mr⟩
  rcases g with _ | g <;> cases hrw : (rw == "") <;> cases hmr : (mr == 0)
  all_goals try (have h0 : rw = "" := by simpa using hrw)
  all_goals try subst h0
  all_goals try (have h1 : mr = 0 := by simpa using hmr)
  all_goals try subst h1
  all_goals
    simp +decide [decodeRecentContextSearchRequest, encodeRecentContextSearchRequest, optField,
      intOmit, strOmit, hrw, hmr, setRecentContextSearchRequest, decString, decInt,
      decOptString, Bind.bind, Except.bind, Pure.pure, Except.pure]

/-- EntityByLabelSearchRequest decoding undoes its encoding. -/
lemma roundtrip_EntityByLabelSearchRequest (r : EntityByLabelSearchRequest) :
    decodeEntityByLabelSearchRequest (encodeEntityByLabelSearchRequest r) = .ok r := by
  rcases r with ⟨qy, g, nl, et, mr⟩
  rcases g with _ | g <;> rcases et with _ | et <;> cases hmr : (mr == 0)
  all_goals try (have h1 : mr = 0 := by simpa using hmr)
  all_goals try subst h1
  all_goals
    simp +decide [decodeEntityByLabelSearchRequest, encodeEntityByLabelSearchRequest, optField,
      intOmit, hmr, setEntityByLabelSearchRequest, decString, decInt, decOptString,
      decStrList_strArr, decOptStrList_strArr, Bind.bind, Except.bind, Pure.pure, Except.pure]

/-- Claim C4: for every request value of every request type, marshalling to
JSON and unmarshalling back through the same schema reproduces the value
(round-trip law). -/
theorem c4_request_roundtrip :
    (∀ o : Observation, decodeObservation (encodeObservation o) = .ok o) ∧
    (∀ m : Message, decodeMessage (encodeMessage m) = .ok m) ∧
    (∀ q : SearchQuery, decodeSearchQuery (encodeSearchQuery q) = .ok q) ∧
    (∀ r : GetMemoryRequest, decodeGetMemoryRequest (encodeGetMemoryRequest r) = .ok r) ∧
    (∀ r : AddMessagesRequest, decodeAddMessagesRequest (encodeAddMessagesRequest r) = .ok r) ∧
    (∀ r : AddEntityNodeRequest,
      decodeAddEntityNodeRequest (encodeAddEntityNodeRequest r) = .ok r) ∧
    (∀ r : TemporalSearchRequest,
      decodeTemporalSearchRequest (encodeTemporalSearchRequest r) = .ok r) ∧
    (∀ r : EntityRelationshipSearchRequest,
      decodeEntityRelationshipSearchRequest (encodeEntityRelationshipSearchRequest r) = .ok r) ∧
    (∀ r : DiverseSearchRequest,
      decodeDiverseSearchRequest (encodeDiverseSearchRequest r) = .ok r) ∧
    (∀ r : EpisodeContextSearchRequest,
      decodeEpisodeContextSearchRequest (encodeEpisodeContextSearchRequest r) = .ok r) ∧
    (∀ r : SuccessfulToolsSearchRequest,
      decodeSuccessfulToolsSearchRequest (encodeSuccessfulToolsSearchRequest r) = .ok r) ∧
    (∀ r : RecentContextSearchRequest,
      decodeRecentContextSearchRequest (encodeRecentContextSearchRequest r) = .ok r) ∧
    (∀ r : EntityByLabelSearchRequest,
      decodeEntityByLabelSearchRequest (encodeEntityByLabelSearchRequest r) = .ok r) :=
  ⟨roundtrip_Observation, roundtrip_Message, roundtrip_SearchQuery, roundtrip_GetMemoryRequest,
   roundtrip_AddMessagesRequest, roundtrip_AddEntityNodeRequest, roundtrip_TemporalSearchRequest,
   roundtrip_EntityRelationshipSearchRequest, roundtrip_DiverseSearchRequest,
   roundtrip_EpisodeContextSearchRequest, roundtrip_SuccessfulToolsSearchRequest,
   roundtrip_RecentContextSearchRequest, roundtrip_EntityByLabelSearchRequest⟩

/-- Folding keys that every step skips is the identity. -/
lemma foldlM_skip {β : Type} (step : β → (String × Json) → Except String β)
    (extras : List (String × Json)) (hstep : ∀ s kv, kv ∈ extras → step s kv = .ok s) :
    ∀ s, extras.foldlM step s = .ok s := by
  induction extras with
  | nil => intro s; rfl
  | cons kv kvs ih =>
    intro s
    rw [List.foldlM_cons, hstep s kv (by simp)]
    exact ih (fun s kv h => hstep s kv (by simp [h])) s

/-- Appending keys that every step skips does not change a decode fold. -/
lemma foldlM_append_skip {β : Type} (step : β → (String × Json) → Except String β)
    (kvs extras : List (String × Json)) (init : β)
    (hstep : ∀ s kv, kv ∈ extras → step s kv = .ok s) :
    (kvs ++ extras).foldlM step init = kvs.foldlM step init := by
  rw [List.foldlM_append]
  cases h : kvs.foldlM step init with
  | error e => rfl
  | ok s => exact foldlM_skip step extras hstep s

/-- Claim C8 as amended: additional unknown response fields are skipped by
the decoder — provided no unknown key is a case-insensitive match, under
Unicode simple folding as in bytes.EqualFold, of a known field key, since
encoding/json accepts such key matches — and missing optional fields decode
to their zero/absent representation; concretely a 200 health-check body
\x7b"status":"ok"\x7d decodes, through the full method, to a result whose
status is "ok". -/
theorem c8_decoder_forward_compat :
    (∀ kvs extras, (∀ kv ∈ extras, foldEq kv.1 "status" = false) →
      decodeHealthCheckResponse (Json.obj (kvs ++ extras)) =
        decodeHealthCheckResponse (Json.obj kvs)) ∧
    (∀ kvs extras,
      (∀ kv ∈ extras, foldEq kv.1 "message" = false ∧ foldEq kv.1 "success" = false) →
      decodeResult (Json.obj (kvs ++ extras)) = decodeResult (Json.obj kvs)) ∧
    (∀ kvs extras,
      (∀ kv ∈ extras, ∀ t ∈ (["uuid", "name", "fact", "valid_at", "invalid_at", "created_at",
        "expired_at"] : List String), foldEq kv.1 t = false) →
      decodeFactResult (Json.obj (kvs ++ extras)) = decodeFactResult (Json.obj kvs)) ∧
    (∀ kvs extras, (∀ kv ∈ extras, foldEq kv.1 "facts" = false) →
      decodeSearchResults (Json.obj (kvs ++ extras)) = decodeSearchResults (Json.obj kvs)) ∧
    (∀ u n f c, decodeFactResult (Json.obj [("uuid", .str u), ("name", .str n),
        ("fact", .str f), ("created_at", .str c)]) =
      .ok ⟨u, n, f, none, none, ⟨c⟩, none⟩) ∧
    goDecode decodeHealthCheckResponse "\x7b\"status\":\"ok\"\x7d" = .ok ⟨"ok"⟩ ∧
    healthCheckM (.ok ()) (.ok ⟨200, "\x7b\"status\":\"ok\"\x7d", false⟩) =
      (some ⟨"ok"⟩, none) := by
  refine ⟨?_, ?_, ?_, ?_, ?_, rfl, rfl⟩
  · intro kvs extras h
    exact foldlM_append_skip _ kvs extras _
      (fun s kv hkv => by simp [setHealthCheckResponse, h kv hkv])
  · intro kvs extras h
    exact foldlM_append_skip _ kvs extras _
      (fun s kv hkv => by simp [setResult, (h kv hkv).1, (h kv hkv).2])
  · intro kvs extras h
    refine foldlM_append_skip _ kvs extras _ (fun s kv hkv => ?_)
    have ht := h kv hkv
    simp only [List.mem_cons, List.not_mem_nil, or_false, forall_eq_or_imp, forall_eq] at ht
    simp [setFactResult, ht.1, ht.2.1, ht.2.2.1, ht.2.2.2.1, ht.2.2.2.2.1, ht.2.2.2.2.2]
  · intro kvs extras h
    exact foldlM_append_skip _ kvs extras _
      (fun s kv hkv => by simp [setSearchResults, h kv hkv])
  · intro u n f c
    simp +decide [decodeFactResult, setFactResult, decString, decTime, FactResult.zero,
      Bind.bind, Except.bind, Pure.pure, Except.pure]

/-- Witness for claim C8: one unknown key (no case-insensitive clash) is
ignored by the health-check decoder. -/
theorem c8_witness :
    decodeHealthCheckResponse
        (Json.obj ([("status", Json.str "ok")] ++ [("extra", Json.num 1)])) =
      decodeHealthCheckResponse (Json.obj [("status", Json.str "ok")]) :=
  c8_decoder_forward_compat.1 [("status", Json.str "ok")] [("extra", Json.num 1)] (by decide)

/-- Claim C8, counterexample to the unrestricted claim: the unknown field
"STATUS" — not a key of the schema — is not ignored: encoding/json matches
it to the status field case-insensitively and its value wins, so decoding
\x7b"status":"ok","STATUS":"evil"\x7d yields "evil", not "ok".  The same
happens through Unicode simple folding for a key starting with the long s
U+017F, which folds onto "status". -/
theorem c8_counterexample :
    decodeHealthCheckResponse
        (Json.obj [("status", Json.str "ok"), ("STATUS", Json.str "evil")]) = .ok ⟨"evil"⟩ ∧
    decodeHealthCheckResponse
        (Json.obj [("status", Json.str "ok"), ("ſtatus", Json.str "evil")]) =
      .ok ⟨"evil"⟩ ∧
    foldEq "ſtatus" "status" = true ∧
    decodeHealthCheckResponse (Json.obj [("status", Json.str "ok")]) = .ok ⟨"ok"⟩ ∧
    (⟨"evil"⟩ : HealthCheckResponse) ≠ ⟨"ok"⟩ :=
  ⟨rfl, rfl, rfl, rfl, by decide⟩

end Graphiti
